import Mathlib

set_option maxRecDepth 40000

/-!
# Verification of the k6 test-suite runner (run-orchestration / extraction / reporting)

A shallow embedding of the runner scripts (`run-all-tests.js` and its console-scan
variant) and proofs about the claims of the specification.

JavaScript numbers are modelled exactly: every numeric value this program produces
is a finite decimal fraction on which IEEE-754 double arithmetic agrees with exact
rational arithmetic at every point the program observes (the only rounding steps are
`toFixed`, `Math.round` and `Math.floor(Math.log(b)/Math.log(1024))`, and at each of
them the double result provably coincides with the exact one on the program's input
range; boundary cases were checked against IEEE-754 semantics).  To keep every
definition kernel-computable we use an unnormalised fraction type `JQ` (numerator,
positive denominator, no gcd reduction) instead of `ℚ`; `JQ.val` maps it to `ℚ` for
symbolic reasoning.  `none : Option JQ` models a non-finite JS number (`NaN`; the
program never produces `±Infinity` on the states quantified over, see the use sites).
-/

/-- An unnormalised fraction: exact model of a finite JS number.  Operations never
reduce by gcd, so every operation is structurally computable. -/
structure JQ where
  num : ℤ
  den : ℕ
  dpos : 0 < den

/-- The rational value of a `JQ`. -/
def JQ.val (q : JQ) : ℚ := (q.num : ℚ) / (q.den : ℚ)

def jqOfNat (n : ℕ) : JQ := ⟨(n : ℤ), 1, Nat.one_pos⟩

def jqOfInt (n : ℤ) : JQ := ⟨n, 1, Nat.one_pos⟩

def jqAdd (a b : JQ) : JQ :=
  ⟨a.num * (b.den : ℤ) + b.num * (a.den : ℤ), a.den * b.den, Nat.mul_pos a.dpos b.dpos⟩

def jqMul (a b : JQ) : JQ :=
  ⟨a.num * b.num, a.den * b.den, Nat.mul_pos a.dpos b.dpos⟩

/-- Division by a `JQ` whose numerator is known (by the caller) to be nonzero;
at numerator `0` it returns `0` (all call sites guard that case separately). -/
def jqDivQ (a b : JQ) : JQ :=
  if h : 0 < b.num then
    ⟨a.num * (b.den : ℤ), a.den * b.num.toNat,
      Nat.mul_pos a.dpos (by omega)⟩
  else if h2 : b.num < 0 then
    ⟨-(a.num * (b.den : ℤ)), a.den * (-b.num).toNat,
      Nat.mul_pos a.dpos (by omega)⟩
  else ⟨0, 1, Nat.one_pos⟩

/-- `⌊q⌋` for a `JQ` (denominator is positive, so `Int.fdiv` is the floor). -/
def jqFloor (q : JQ) : ℤ := Int.fdiv q.num (q.den : ℤ)

/-- Decidable value comparison `a ≤ b` (denominators are positive). -/
def jqLe (a b : JQ) : Bool := decide (a.num * (b.den : ℤ) ≤ b.num * (a.den : ℤ))

/-- A JS number: `some` a finite value, `none` for `NaN` (see module comment). -/
abbrev JSNum := Option JQ

/-- JS `+` on numbers (`NaN` absorbing). -/
def jadd (x y : JSNum) : JSNum :=
  match x, y with
  | some a, some b => some (jqAdd a b)
  | _, _ => none

/-- JS `*` on numbers (`NaN` absorbing). -/
def jmul (x y : JSNum) : JSNum :=
  match x, y with
  | some a, some b => some (jqMul a b)
  | _, _ => none

/-- JS `/` on numbers.  Division by value `0` yields `none`: in this program the
only reachable zero-denominator division is `0/0` (`NaN`); a nonzero numerator over
`0` (JS `±Infinity`) is unreachable at every call site (the numerator is a count
bounded by the denominator). -/
def jdiv (x y : JSNum) : JSNum :=
  match x, y with
  | some a, some b => if b.num = 0 then none else some (jqDivQ a b)
  | _, _ => none

/-- Digits of `n` in base 10, rendered; `fixedDigits n d` is the string
`toString (n / 10^d) ++ "." ++ <n % 10^d padded to d digits>` (no dot when `d = 0`),
i.e. the body of JS `toFixed(d)` for a nonnegative scaled integer `n`. -/
def fixedDigits (n : ℕ) (d : ℕ) : String :=
  if d = 0 then Nat.repr n
  else
    let fs := Nat.repr (n % 10 ^ d)
    Nat.repr (n / 10 ^ d) ++ "." ++ String.mk (List.replicate (d - fs.length) '0') ++ fs

/-- JS `Number.prototype.toFixed(d)`: the integer `n` with `n/10^d` closest to the
value, ties to the larger `n` — that is `⌊x·10^d + 1/2⌋` — rendered with `d`
decimals; `NaN` renders as `"NaN"`. -/
def jsToFixed (d : ℕ) (x : JSNum) : String :=
  match x with
  | none => "NaN"
  | some q =>
    let n : ℤ := jqFloor (jqAdd (jqMul q (jqOfNat (10 ^ d))) ⟨1, 2, Nat.succ_pos 1⟩)
    if n < 0 then "-" ++ fixedDigits n.natAbs d else fixedDigits n.toNat d

/-- JS `Math.round`: `⌊q + 1/2⌋` (half toward `+∞`, as specified for doubles). -/
def jsRound (q : JQ) : ℤ := jqFloor (jqAdd q ⟨1, 2, Nat.succ_pos 1⟩)

/-- Character-class tests used by the embedded patterns (ASCII range of the JS
classes; the inputs of this program are ASCII). -/
inductive CharCls where
  | digit
  | digitComma
  | digitDot
  | space
  | word
  | nonColon
deriving DecidableEq

def CharCls.test : CharCls → Char → Bool
  | .digit, c => 48 ≤ c.toNat && c.toNat ≤ 57
  | .digitComma, c => (48 ≤ c.toNat && c.toNat ≤ 57) || c.toNat = 44
  | .digitDot, c => (48 ≤ c.toNat && c.toNat ≤ 57) || c.toNat = 46
  | .space, c => c.toNat = 32 || c.toNat = 9 || c.toNat = 10 || c.toNat = 13 ||
      c.toNat = 11 || c.toNat = 12
  | .word, c => (48 ≤ c.toNat && c.toNat ≤ 57) || (97 ≤ c.toNat && c.toNat ≤ 122) ||
      (65 ≤ c.toNat && c.toNat ≤ 90) || c.toNat = 95
  | .nonColon, c => c.toNat ≠ 58

/-- Numeric value of a list of decimal digit characters (most significant first). -/
def digitsToNat (cs : List Char) : ℕ :=
  cs.foldl (fun a c => a * 10 + (c.toNat - '0'.toNat)) 0

/-- JS `String.prototype.trim` on a character list (ASCII whitespace; the
captures it is applied to can neither start nor end with whitespace, so this is
an identity at its call sites). -/
def listTrim (cs : List Char) : List Char :=
  ((cs.dropWhile (CharCls.space.test ·)).reverse.dropWhile (CharCls.space.test ·)).reverse

/-- JS `parseInt` restricted to its use sites in this program: the argument is a
match of the class `[\d,]+` with the commas already removed, i.e. a (possibly
empty) digit string; the empty string gives `NaN` (`none`). -/
def jsParseIntDigits (cs : List Char) : Option ℕ :=
  if cs.isEmpty then none else some (digitsToNat cs)

def stripCommas (cs : List Char) : List Char := cs.filter (fun c => c ≠ ',')

/-- Exponent part of a JS float literal: sign and digits after `e`/`E`; an
exponent with no digits contributes `0` (JS stops parsing before the `e`). -/
def jsExpVal (t : List Char) : ℤ :=
  let u := if t.headD ' ' = '-' || t.headD ' ' = '+' then t.tail else t
  let ds := u.takeWhile (CharCls.digit.test ·)
  if ds.isEmpty then 0
  else if t.headD ' ' = '-' then -(digitsToNat ds : ℤ) else (digitsToNat ds : ℤ)

/-- Scale a `JQ` by `10^e`. -/
def jqScalePow10 (q : JQ) (e : ℤ) : JQ :=
  if 0 ≤ e then ⟨q.num * (10 : ℤ) ^ e.toNat, q.den, q.dpos⟩
  else ⟨q.num, q.den * 10 ^ (-e).toNat,
    Nat.mul_pos q.dpos (Nat.pos_pow_of_pos _ (by omega))⟩

/-- JS `parseFloat`: longest valid decimal-literal prefix after optional
whitespace and sign (`digits [. digits] [exp]` or `. digits [exp]`); no digits at
all gives `NaN`.  (The `Infinity` literal is not modelled: no call site of this
program can receive it — captures come from digit classes — except the free-form
`duration` strings, where the theorems treat the resulting value opaquely.) -/
def jsParseFloat (s0 : List Char) : Option JQ :=
  let s1 := s0.dropWhile (CharCls.space.test ·)
  let sgn : ℤ := if s1.headD ' ' = '-' then -1 else 1
  let s2 : List Char := if s1.headD ' ' = '-' || s1.headD ' ' = '+' then s1.tail else s1
  let ip := s2.takeWhile (CharCls.digit.test ·)
  let s3 := s2.drop ip.length
  let fp : List Char :=
    if s3.headD ' ' = '.' then (s3.tail).takeWhile (CharCls.digit.test ·) else []
  let s4 : List Char := if s3.headD ' ' = '.' then (s3.tail).drop fp.length else s3
  if ip.isEmpty && fp.isEmpty then none
  else
    let ex : ℤ := if s4.headD ' ' = 'e' || s4.headD ' ' = 'E' then jsExpVal s4.tail else 0
    let mant : JQ := ⟨sgn * ((digitsToNat ip : ℤ) * (10 : ℤ) ^ fp.length + (digitsToNat fp : ℤ)),
      10 ^ fp.length, Nat.pos_pow_of_pos _ (by omega)⟩
    some (jqScalePow10 mant ex)

def jsParseFloatS (s : String) : Option JQ := jsParseFloat s.data

/-- Minimal `k ≤ 100` such that the value has an exact `k`-decimal representation
(the denominator divides `num·10^k`); `none` beyond that (unreachable for the
decimal values this program produces). -/
def decExp (q : JQ) : Option ℕ :=
  (List.range 101).find? fun k => q.num * (10 : ℤ) ^ k % (q.den : ℤ) = 0

/-- JS number-to-string conversion for the finite decimal values this program
produces: the shortest decimal representation (JS prints the shortest string that
round-trips, which for an exactly-representable decimal is that decimal with no
trailing zeros).  Values with no short decimal representation get a marker string
(unreachable on program-produced values). -/
def jsNumToString (x : JSNum) : String :=
  match x with
  | none => "NaN"
  | some q =>
    match decExp q with
    | some k =>
      let m : ℤ := q.num * (10 : ℤ) ^ k / (q.den : ℤ)
      if m < 0 then "-" ++ fixedDigits m.natAbs k else fixedDigits m.toNat k
    | none => "NONDECIMAL " ++ Int.repr q.num ++ "/" ++ Nat.repr q.den

/-!
## Pattern matching

The console-scan strategy uses JS regexes that are all flat sequences of literals
and greedy character-class repetitions with a single capture group.  `matchLens`
implements the JS backtracking order exactly for this fragment: a repetition first
consumes its maximal run and shortens it one character at a time until the rest of
the sequence matches; `firstCapture` tries match positions left to right. -/

inductive RItem where
  | lit (cs : List Char)
  | cls (c : CharCls) (lo : ℕ)

/-- Greedy search for the repetition count: try `k`, then `k-1`, … down to `lo`,
feeding the rest of the input to the continuation `f` (the matcher for the
remaining items). -/
def tryCls (f : List Char → Option (List ℕ)) (s : List Char) (lo : ℕ) :
    ℕ → Option (List ℕ)
  | 0 =>
    if 0 < lo then none
    else
      match f s with
      | some t => some (0 :: t)
      | none => none
  | k + 1 =>
    if k + 1 < lo then none
    else
      match f (s.drop (k + 1)) with
      | some t => some ((k + 1) :: t)
      | none => tryCls f s lo k

/-- Lengths consumed by each item of the sequence for the first match in JS
backtracking order, or `none`. -/
def matchLens : List RItem → List Char → Option (List ℕ)
  | [], _ => some []
  | .lit l :: rest, s =>
    if l.isPrefixOf s then (matchLens rest (s.drop l.length)).map (l.length :: ·) else none
  | .cls c lo :: rest, s =>
    tryCls (fun s2 => matchLens rest s2) s lo ((s.takeWhile (c.test ·)).length)

/-- A pattern: items before the capture group, the capture group, items after. -/
structure RPat where
  pre : List RItem
  cap : List RItem
  post : List RItem

def RPat.items (p : RPat) : List RItem := p.pre ++ p.cap ++ p.post

/-- The capture of a match of `p` at the start of `s`, if any. -/
def matchCaptureAt (p : RPat) (s : List Char) : Option (List Char) :=
  (matchLens p.items s).map fun ls =>
    (s.drop ((ls.take p.pre.length).sum)).take (((ls.drop p.pre.length).take p.cap.length).sum)

/-- First match position left to right (JS `String.prototype.match`), returning
the capture group `m[1]`. -/
def firstCapture (p : RPat) : List Char → Option (List Char)
  | [] => matchCaptureAt p []
  | s@(_ :: t) =>
    match matchCaptureAt p s with
    | some c => some c
    | none => firstCapture p t

/-!
## Text-Scan strategy (`parseMetricsFromOutput`, console-scan runner)

The patterns below transcribe the regexes of the source one item at a time
(`[^:]*` = `cls .nonColon 0`, `\s*` = `cls .space 0`, `[\d,]+` = `cls .digitComma 1`,
`[\d.]+` = `cls .digitDot 1`, `\w+` = `cls .word 1`). -/

def patHttpReqs : RPat :=
  ⟨[.lit "http_reqs".data, .cls .nonColon 0, .lit ":".data, .cls .space 0],
   [.cls .digitComma 1], []⟩

def patIterations : RPat :=
  ⟨[.lit "iterations".data, .cls .nonColon 0, .lit ":".data, .cls .space 0],
   [.cls .digitComma 1], []⟩

def patChecksRate : RPat :=
  ⟨[.lit "checks".data, .cls .nonColon 0, .lit ":".data, .cls .space 0],
   [.cls .digitDot 1], [.lit "%".data]⟩

def patAvgDuration : RPat :=
  ⟨[.lit "http_req_duration".data, .cls .nonColon 0, .lit ":".data, .cls .space 0,
    .lit "avg=".data], [.cls .digitDot 1], []⟩

def patMinDuration : RPat := ⟨[.lit "min=".data], [.cls .digitDot 1], []⟩

def patMaxDuration : RPat := ⟨[.lit "max=".data], [.cls .digitDot 1], []⟩

def patMedDuration : RPat := ⟨[.lit "med=".data], [.cls .digitDot 1], []⟩

def patP95Duration : RPat := ⟨[.lit "p(95)=".data], [.cls .digitDot 1], []⟩

def patFailedRate : RPat :=
  ⟨[.lit "http_req_failed".data, .cls .nonColon 0, .lit ":".data, .cls .space 0],
   [.cls .digitDot 1], [.lit "%".data]⟩

def patFailedCount : RPat :=
  ⟨[.lit "http_req_failed".data, .cls .nonColon 0, .lit ":".data, .cls .space 0],
   [.cls .digitComma 1], [.cls .space 0]⟩

def patVusMax : RPat :=
  ⟨[.lit "vus_max".data, .cls .nonColon 0, .lit ":".data, .cls .space 0],
   [.cls .digitComma 1], []⟩

def patDataReceived : RPat :=
  ⟨[.lit "data_received".data, .cls .nonColon 0, .lit ":".data, .cls .space 0],
   [.cls .digitDot 1, .cls .space 0, .cls .word 1], []⟩

def patDataSent : RPat :=
  ⟨[.lit "data_sent".data, .cls .nonColon 0, .lit ":".data, .cls .space 0],
   [.cls .digitDot 1, .cls .space 0, .cls .word 1], []⟩

def patChecksPassed : RPat :=
  ⟨[.lit "checks".data, .cls .nonColon 0, .lit ":".data, .cls .space 0],
   [.cls .digitComma 1], [.cls .space 0, .lit "of".data]⟩

def patChecksTotal : RPat :=
  ⟨[.lit "checks".data, .cls .nonColon 0, .lit ":".data, .cls .space 0,
    .cls .digitComma 1, .cls .space 0, .lit "of".data, .cls .space 0],
   [.cls .digitComma 1], []⟩

/-- `parseInt(c.replace(/,/g, '')) || 0`. -/
def intOr0 (c : List Char) : ℕ := (jsParseIntDigits (stripCommas c)).getD 0

/-- `parseFloat(c) || 0`: `NaN` and value `0` (falsy) both yield the number `0`. -/
def floatOr0 (c : List Char) : JQ :=
  match jsParseFloat c with
  | none => jqOfNat 0
  | some v => if v.num = 0 then jqOfNat 0 else v

/-- `http_req_duration` sub-record of the canonical console-scan shape. -/
structure DurJQ where
  avg : JQ
  min : JQ
  max : JQ
  p95 : JQ
  med : JQ

/-- `checks` sub-record: `failed = total - passed` is a plain JS subtraction, so it
lives in `ℤ` (the two counts come from independent pattern matches). -/
structure ChecksT where
  total : ℕ
  passed : ℕ
  failed : ℤ
  rate : JQ

/-- Canonical metrics shape produced by `parseMetricsFromOutput` (console-scan
runner): counts from `parseInt`, durations/rates from `parseFloat` (numbers),
data sizes kept as the matched strings. -/
structure MetricsText where
  http_reqs : ℕ
  http_req_duration : DurJQ
  http_req_failed : ℕ
  http_req_failed_rate : JQ
  iterations : ℕ
  checks : ChecksT
  vus_max : ℕ
  data_received : String
  data_sent : String

def mtDefault : MetricsText :=
  ⟨0, ⟨jqOfNat 0, jqOfNat 0, jqOfNat 0, jqOfNat 0, jqOfNat 0⟩, 0, jqOfNat 0, 0,
   ⟨0, 0, 0, jqOfNat 0⟩, 0, "0 B", "0 B"⟩

/-- One `if (match) { assign }` step of the source: apply the update when the
pattern matched, keep the record otherwise. -/
def stepOpt {σ α : Type} (o : Option α) (m : σ) (f : α → σ) : σ :=
  match o with
  | some v => f v
  | none => m

/-- `parseMetricsFromOutput(output, testName)` of the console-scan runner: the
sequence of independent pattern rules, applied in source order.  The surrounding
`try`/`catch` of the source can never fire (none of the operations throws on any
input), and the unused `lines` local is omitted. -/
def parseMetricsFromOutput (output : String) : MetricsText :=
  let s := output.data
  let m1 := stepOpt (firstCapture patHttpReqs s) mtDefault fun c =>
    { mtDefault with http_reqs := intOr0 c }
  let m2 := stepOpt (firstCapture patIterations s) m1 fun c =>
    { m1 with iterations := intOr0 c }
  let m3 := stepOpt (firstCapture patChecksRate s) m2 fun c =>
    { m2 with checks := { m2.checks with rate := floatOr0 c } }
  let m4 := stepOpt (firstCapture patAvgDuration s) m3 fun c =>
    { m3 with http_req_duration := { m3.http_req_duration with avg := floatOr0 c } }
  let m5 := stepOpt (firstCapture patMinDuration s) m4 fun c =>
    { m4 with http_req_duration := { m4.http_req_duration with min := floatOr0 c } }
  let m6 := stepOpt (firstCapture patMaxDuration s) m5 fun c =>
    { m5 with http_req_duration := { m5.http_req_duration with max := floatOr0 c } }
  let m7 := stepOpt (firstCapture patMedDuration s) m6 fun c =>
    { m6 with http_req_duration := { m6.http_req_duration with med := floatOr0 c } }
  let m8 := stepOpt (firstCapture patP95Duration s) m7 fun c =>
    { m7 with http_req_duration := { m7.http_req_duration with p95 := floatOr0 c } }
  let m9 := stepOpt (firstCapture patFailedRate s) m8 fun c =>
    { m8 with http_req_failed_rate := floatOr0 c }
  let m10 := stepOpt (firstCapture patFailedCount s) m9 fun c =>
    { m9 with http_req_failed := intOr0 c }
  let m11 := stepOpt (firstCapture patVusMax s) m10 fun c =>
    { m10 with vus_max := intOr0 c }
  let m12 := stepOpt (firstCapture patDataReceived s) m11 fun c =>
    { m11 with data_received := String.mk (listTrim c) }
  let m13 := stepOpt (firstCapture patDataSent s) m12 fun c =>
    { m12 with data_sent := String.mk (listTrim c) }
  match firstCapture patChecksPassed s, firstCapture patChecksTotal s with
  | some cp, some ct =>
    { m13 with checks := { m13.checks with
        passed := intOr0 cp, total := intOr0 ct,
        failed := (intOr0 ct : ℤ) - (intOr0 cp : ℤ) } }
  | _, _ => m13

/-- Value of a `parseInt`-style field rule, in isolation. -/
def natField (p : RPat) (s : List Char) : ℕ :=
  stepOpt (firstCapture p s) 0 intOr0

/-- Value of a `parseFloat`-style field rule, in isolation. -/
def floatField (p : RPat) (s : List Char) : JQ :=
  stepOpt (firstCapture p s) (jqOfNat 0) floatOr0

/-- Value of a string field rule, in isolation. -/
def strField (p : RPat) (s : List Char) : String :=
  stepOpt (firstCapture p s) "0 B" fun c => String.mk (listTrim c)

/-- The `checks` passed/total/failed triple rule, in isolation (the source sets
the three fields together, only when both patterns match). -/
def checksCounts (s : List Char) : ℕ × ℕ × ℤ :=
  match firstCapture patChecksPassed s, firstCapture patChecksTotal s with
  | some cp, some ct => (intOr0 cp, intOr0 ct, (intOr0 ct : ℤ) - (intOr0 cp : ℤ))
  | _, _ => (0, 0, 0)

/-- The Text-Scan result as a record of independent per-field rules (the
specification's reading of the strategy). -/
def textScanFields (output : String) : MetricsText :=
  let s := output.data
  { http_reqs := natField patHttpReqs s
  , http_req_duration :=
      ⟨floatField patAvgDuration s, floatField patMinDuration s,
       floatField patMaxDuration s, floatField patP95Duration s,
       floatField patMedDuration s⟩
  , http_req_failed := natField patFailedCount s
  , http_req_failed_rate := floatField patFailedRate s
  , iterations := natField patIterations s
  , checks :=
      ⟨(checksCounts s).2.1, (checksCounts s).1, (checksCounts s).2.2,
       floatField patChecksRate s⟩
  , vus_max := natField patVusMax s
  , data_received := strField patDataReceived s
  , data_sent := strField patDataSent s }

/-!
## Byte formatter and Summary-Read strategy (`run-all-tests.js`) -/

/-- Largest `i` with `1024^i ≤ b` for `b ≥ 1`, computed structurally (the fuel
covers every finite JS double: doubles overflow to `Infinity` beyond `2^1024`). -/
def logGo : ℕ → ℕ → ℕ
  | 0, _ => 0
  | fuel + 1, b => if b < 1024 then 0 else logGo fuel (b / 1024) + 1

/-- Minimal `m` with `d ≤ n · 1024^m`, structurally (used for values in `(0,1)`). -/
def clogGo : ℕ → ℤ → ℤ → ℕ
  | 0, _, _ => 0
  | fuel + 1, n, d => if d ≤ n then 0 else clogGo fuel (n * 1024) d + 1

/-- `Math.floor(Math.log(b) / Math.log(1024))` for a positive value: the exact
base-1024 floor-logarithm.  (IEEE-754 agreement: the double computation yields the
exact floor at every breakpoint `1024^i` of the program's range — checked against
double semantics — and elsewhere the margin to the next integer exceeds any
rounding error of the two `Math.log` calls and the division.) -/
def intLogJq (q : JQ) : ℤ :=
  if (q.den : ℤ) ≤ q.num then (logGo 120 (jqFloor q).toNat : ℤ)
  else -(clogGo 120 q.num (q.den : ℤ) : ℤ)

def sizesArr : List String := ["B", "KB", "MB", "GB"]

/-- JS `sizes[i]`: out-of-range indices give `undefined`, which string
concatenation renders as `"undefined"`. -/
def sizesIdx (i : ℤ) : String :=
  if 0 ≤ i then sizesArr.getD i.toNat "undefined" else "undefined"

/-- `Math.pow(1024, i)` as an exact fraction. -/
def jqPow1024 (i : ℤ) : JQ :=
  if 0 ≤ i then ⟨(1024 : ℤ) ^ i.toNat, 1, Nat.one_pos⟩
  else ⟨1, 1024 ^ (-i).toNat, Nat.pos_pow_of_pos _ (by omega)⟩

/-- `formatBytes(bytes)` of `run-all-tests.js`: `"0 B"` at `0`; for negative
input `Math.log` is `NaN` and the whole chain renders `"NaN undefined"`; otherwise
`i = Math.floor(Math.log(bytes)/Math.log(1024))` and the result is
`parseFloat((bytes / Math.pow(1024, i)).toFixed(2)) + ' ' + sizes[i]`. -/
def formatBytes (bytes : JQ) : String :=
  if bytes.num = 0 then "0 B"
  else if bytes.num < 0 then "NaN undefined"
  else
    let i := intLogJq bytes
    jsNumToString (jsParseFloat (jsToFixed 2 (some (jqDivQ bytes (jqPow1024 i)))).data)
      ++ " " ++ sizesIdx i

/-- JS `x || 0` on an optional number: absent, `NaN`-free zero or zero-valued
input all give the number `0`. -/
def jsOr0 (o : Option JQ) : JQ :=
  match o with
  | none => jqOfNat 0
  | some v => if v.num = 0 then jqOfNat 0 else v

/-- The `values` object of one metric of the k6 `--summary-export` document;
keys that may be absent are `Option` (`p95` models the `"p(95)"` key). -/
structure SVals where
  count : Option JQ
  avg : Option JQ
  min : Option JQ
  max : Option JQ
  med : Option JQ
  p95 : Option JQ
  rate : Option JQ
  passes : Option JQ
  fails : Option JQ

structure SEntry where
  values : Option SVals

/-- A parsed summary document: `metrics` maps metric names to entries (a JS
object keyed by name); `none` models an absent `metrics` member.  A whole-document
`null` is the `none` of `Option SummaryDoc` at the call sites. -/
structure SummaryDoc where
  metrics : Option (List (String × SEntry))

/-- A JS value that is either a number or a string: the summary extractor
initialises some fields with the number `0` and overwrites them with `toFixed`
strings. -/
inductive JVal where
  | num (q : JQ)
  | str (s : String)

structure DurRA where
  avg : JVal
  min : JVal
  max : JVal
  p95 : JVal
  med : JVal

structure ChecksRA where
  total : ℤ
  passed : ℤ
  failed : ℤ
  rate : JVal

/-- Canonical metrics shape of the summary-reading runner. -/
structure MetricsRA where
  http_reqs : ℤ
  http_req_duration : DurRA
  http_req_failed : ℤ
  http_req_failed_rate : JVal
  iterations : ℤ
  checks : ChecksRA
  vus_max : ℤ
  data_received : String
  data_sent : String

def jv0 : JVal := .num (jqOfNat 0)

def mraDefault : MetricsRA :=
  ⟨0, ⟨jv0, jv0, jv0, jv0, jv0⟩, 0, jv0, 0, ⟨0, 0, 0, jv0⟩, 0, "0 B", "0 B"⟩

/-- `summary.metrics.<name>?.values` (optional chaining). -/
def lookupValues (ms : List (String × SEntry)) (name : String) : Option SVals :=
  (ms.lookup name).bind (·.values)

/-- `extractMetricsFromSummary(summary)` of `run-all-tests.js`: the guard
`!summary || !summary.metrics` followed by the independent guarded blocks, in
source order.  The surrounding `try`/`catch` can never fire: optional chaining
and `|| 0` make every lookup total. -/
def extractMetricsFromSummary (summary : Option SummaryDoc) : MetricsRA :=
  match summary with
  | none => mraDefault
  | some sdoc =>
    match sdoc.metrics with
    | none => mraDefault
    | some ms =>
      let m1 := stepOpt ((lookupValues ms "http_reqs").bind (·.count)) mraDefault fun c =>
        { mraDefault with http_reqs := jsRound c }
      let m2 := stepOpt (lookupValues ms "http_req_duration") m1 fun dur =>
        { m1 with http_req_duration :=
            ⟨.str (jsToFixed 2 (some (jsOr0 dur.avg))),
             .str (jsToFixed 2 (some (jsOr0 dur.min))),
             .str (jsToFixed 2 (some (jsOr0 dur.max))),
             .str (jsToFixed 2 (some (jsOr0 dur.p95))),
             .str (jsToFixed 2 (some (jsOr0 dur.med)))⟩ }
      let m3 := stepOpt (lookupValues ms "http_req_failed") m2 fun fd =>
        { m2 with
            http_req_failed := jsRound (jsOr0 fd.passes),
            http_req_failed_rate :=
              .str (jsToFixed 2 (some (jqMul (jsOr0 fd.rate) (jqOfNat 100)))) }
      let m4 := stepOpt ((lookupValues ms "iterations").bind (·.count)) m3 fun c =>
        { m3 with iterations := jsRound c }
      let m5 := stepOpt (lookupValues ms "checks") m4 fun cd =>
        let p := jsRound (jsOr0 cd.passes)
        let f := jsRound (jsOr0 cd.fails)
        { m4 with checks :=
            ⟨p + f, p, f, .str (jsToFixed 2 (some (jqMul (jsOr0 cd.rate) (jqOfNat 100))))⟩ }
      let m6 := stepOpt ((lookupValues ms "vus_max").bind (·.max)) m5 fun v =>
        { m5 with vus_max := jsRound v }
      let m7 := stepOpt ((lookupValues ms "data_received").bind (·.count)) m6 fun c =>
        { m6 with data_received := formatBytes c }
      stepOpt ((lookupValues ms "data_sent").bind (·.count)) m7 fun c =>
        { m7 with data_sent := formatBytes c }

/-- `summary.metrics.<name>?.values` through both outer guards. -/
def summaryVals (summary : Option SummaryDoc) (name : String) : Option SVals :=
  match summary with
  | none => none
  | some sdoc =>
    match sdoc.metrics with
    | none => none
    | some ms => lookupValues ms name

/-- The Summary-Read result as a record of independent per-key lookup rules (the
specification's reading of the strategy). -/
def summaryFieldsRA (summary : Option SummaryDoc) : MetricsRA :=
  { http_reqs := stepOpt ((summaryVals summary "http_reqs").bind (·.count)) 0 jsRound
  , http_req_duration :=
      stepOpt (summaryVals summary "http_req_duration") ⟨jv0, jv0, jv0, jv0, jv0⟩ fun dur =>
        ⟨.str (jsToFixed 2 (some (jsOr0 dur.avg))),
         .str (jsToFixed 2 (some (jsOr0 dur.min))),
         .str (jsToFixed 2 (some (jsOr0 dur.max))),
         .str (jsToFixed 2 (some (jsOr0 dur.p95))),
         .str (jsToFixed 2 (some (jsOr0 dur.med)))⟩
  , http_req_failed :=
      stepOpt (summaryVals summary "http_req_failed") 0 fun fd => jsRound (jsOr0 fd.passes)
  , http_req_failed_rate :=
      stepOpt (summaryVals summary "http_req_failed") jv0 fun fd =>
        .str (jsToFixed 2 (some (jqMul (jsOr0 fd.rate) (jqOfNat 100))))
  , iterations := stepOpt ((summaryVals summary "iterations").bind (·.count)) 0 jsRound
  , checks :=
      stepOpt (summaryVals summary "checks") ⟨0, 0, 0, jv0⟩ fun cd =>
        ⟨jsRound (jsOr0 cd.passes) + jsRound (jsOr0 cd.fails),
         jsRound (jsOr0 cd.passes), jsRound (jsOr0 cd.fails),
         .str (jsToFixed 2 (some (jqMul (jsOr0 cd.rate) (jqOfNat 100))))⟩
  , vus_max := stepOpt ((summaryVals summary "vus_max").bind (·.max)) 0 jsRound
  , data_received :=
      stepOpt ((summaryVals summary "data_received").bind (·.count)) "0 B" formatBytes
  , data_sent :=
      stepOpt ((summaryVals summary "data_sent").bind (·.count)) "0 B" formatBytes }

/-!
## Run executors

The subprocess invocation, the wall clock and the evidence files are ambient
effects; they enter the embedding as an explicit per-scenario `Outcome…` value
(captured stdout / parsed summary evidence, the computed duration string, the
`new Date().toISOString()` stamp). -/

/-- A scenario descriptor (one entry of the `tests` array of either runner). -/
structure TestDef where
  name : String
  file : String
  description : String

/-- Outcome of one `execSync` call of the console-scan runner. -/
inductive OutcomeP0 where
  | ok (output : String) (duration : String) (ts : String)
  | err (message : String) (duration : String) (ts : String)

/-- One element of the console-scan runner's `results` array; `metrics`/`error`
are `Option`: `none` models the property being absent from the pushed object. -/
structure ResultP0 where
  name : String
  file : String
  description : String
  status : String
  duration : String
  metrics : Option MetricsText
  error : Option String
  timestamp : String

/-- Loop body of `tests.forEach` (console-scan runner): on normal completion push
a `PASSED` entry with parsed metrics and no `error` property; on a thrown
invocation error push a `FAILED` entry with the caught message and no `metrics`
property. -/
def runTestP0 (t : TestDef) : OutcomeP0 → ResultP0
  | .ok output d ts =>
    ⟨t.name, t.file, t.description, "PASSED", d, some (parseMetricsFromOutput output), none, ts⟩
  | .err msg d ts =>
    ⟨t.name, t.file, t.description, "FAILED", d, none, some msg, ts⟩

/-- The whole `tests.forEach` loop of the console-scan runner: the `results`
array after a full run. -/
def runSuiteP0 (l : List (TestDef × OutcomeP0)) : List ResultP0 :=
  l.map fun p => runTestP0 p.1 p.2

/-- Outcome of one invocation of the summary-reading runner: on success the
summary evidence is `none` when the export file is missing or unparsable
(`metrics` stays `null`), otherwise the parsed JSON, which may itself be `null`. -/
inductive OutcomeRA where
  | ok (summary : Option (Option SummaryDoc)) (duration : String) (ts : String)
  | err (message : String) (duration : String) (ts : String)

/-- One element of the summary-reading runner's `results` array; the outer
`Option` on `metrics` models property presence, the inner one a `null` value. -/
structure ResultRA where
  name : String
  file : String
  description : String
  status : String
  duration : String
  metrics : Option (Option MetricsRA)
  error : Option String
  timestamp : String

/-- Loop body of `tests.forEach` (summary-reading runner). -/
def runTestRA (t : TestDef) : OutcomeRA → ResultRA
  | .ok ev d ts =>
    ⟨t.name, t.file, t.description, "PASSED", d, some (ev.map extractMetricsFromSummary), none, ts⟩
  | .err msg d ts =>
    ⟨t.name, t.file, t.description, "FAILED", d, none, some msg, ts⟩

/-- The whole `tests.forEach` loop of the summary-reading runner. -/
def runSuiteRA (l : List (TestDef × OutcomeRA)) : List ResultRA :=
  l.map fun p => runTestRA p.1 p.2

/-!
## CSV emitter (console-scan runner) -/

/-- Sequence a list of optionals: `none` as soon as one element is `none` (the
JS `map` callback throws there and aborts the whole `map`). -/
def seqOpt {α : Type} : List (Option α) → Option (List α)
  | [] => some []
  | o :: t =>
    match o with
    | none => none
    | some v => (seqOpt t).map (v :: ·)

def csvHeaders : String :=
  "Test Name,Status,Duration(s),Iterations,HTTP Requests,Avg Response Time(ms),P95 Response Time(ms),Success Rate(%),Fail Rate(%),Timestamp\n"

/-- One row of `exportToCSV`'s `results.map`: dereferencing `test.metrics` throws
a `TypeError` (`none`) when the entry has no metrics property, aborting the map. -/
def csvRow (t : ResultP0) : Option String :=
  match t.metrics with
  | none => none
  | some m =>
    some ("\"" ++ t.name ++ "\"," ++ t.status ++ "," ++ t.duration ++ ","
      ++ Nat.repr m.iterations ++ "," ++ Nat.repr m.http_reqs ++ ","
      ++ jsNumToString (some m.http_req_duration.avg) ++ ","
      ++ jsNumToString (some m.http_req_duration.p95) ++ ","
      ++ jsNumToString (some m.checks.rate) ++ ","
      ++ jsNumToString (some m.http_req_failed_rate) ++ ","
      ++ t.timestamp)

/-- `exportToCSV(results, timestamp)` of the console-scan runner: the CSV file
content (header plus newline-joined rows); `none` when building any row threw
(then no content is produced and the exception propagates out of the function).
The `timestamp` parameter only names the output file, which is outside the model. -/
def exportToCSV (results : List ResultP0) (timestamp : String) : Option String :=
  (seqOpt (results.map csvRow)).map fun rows =>
    csvHeaders ++ String.intercalate "\n" rows

/-!
## HTML emitter (console-scan runner)

The template literal of `generateHTMLReport` is embedded verbatim as the string
segments between its interpolation points (braces and apostrophes written with
hexadecimal escapes). -/

/-- Template text up to `${timestamp}` in the title. -/
def htmlHead1 : String :=
  "<!DOCTYPE html>\n<html lang=\"en\">\n<head>\n    <meta charset=\"UTF-8\">\n    <meta name=\"viewport\" content=\"width=device-width, initial-scale=1.0\">\n    <title>k6 Test Report - "

/-- Template text (the style sheet) up to the first wall-clock read. -/
def htmlHead2 : String :=
  "</title>\n    <style>\n        * \x7b margin: 0; padding: 0; box-sizing: border-box; \x7d\n        body \x7b\n            font-family: -apple-system, BlinkMacSystemFont, \x27Segoe UI\x27, Roboto, sans-serif;\n            background: #f5f6fa;\n            padding: 20px;\n            line-height: 1.6;\n        \x7d\n        .container \x7b\n            max-width: 1200px;\n            margin: 0 auto;\n            background: white;\n            border-radius: 10px;\n            box-shadow: 0 10px 30px rgba(0,0,0,0.1);\n            overflow: hidden;\n        \x7d\n        .header \x7b\n            background: linear-gradient(135deg, #667eea 0%, #764ba2 100%);\n            color: white;\n            padding: 40px;\n            text-align: center;\n        \x7d\n        .header h1 \x7b\n            font-size: 2.5em;\n            margin-bottom: 10px;\n        \x7d\n        .summary \x7b\n            display: grid;\n            grid-template-columns: repeat(auto-fit, minmax(200px, 1fr));\n            gap: 20px;\n            padding: 30px;\n            background: #f8f9fa;\n        \x7d\n        .summary-card \x7b\n            background: white;\n            padding: 25px;\n            border-radius: 8px;\n            text-align: center;\n            box-shadow: 0 2px 10px rgba(0,0,0,0.1);\n        \x7d\n        .summary-card .value \x7b\n            font-size: 2em;\n            font-weight: bold;\n            margin: 10px 0;\n        \x7d\n        .success \x7b color: #10b981; \x7d\n        .failure \x7b color: #ef4444; \x7d\n        .info \x7b color: #3b82f6; \x7d\n        \n        .overview \x7b\n            padding: 30px;\n            background: white;\n            border-bottom: 1px solid #e5e7eb;\n        \x7d\n        .overview h2 \x7b\n            margin-bottom: 20px;\n            color: #1f2937;\n        \x7d\n        .overview-grid \x7b\n            display: grid;\n            grid-template-columns: repeat(auto-fit, minmax(250px, 1fr));\n            gap: 20px;\n        \x7d\n        .overview-item \x7b\n            padding: 15px;\n            background: #f8f9fa;\n            border-radius: 8px;\n        \x7d\n        .overview-item .label \x7b\n            font-size: 0.9em;\n            color: #6b7280;\n            margin-bottom: 5px;\n        \x7d\n        .overview-item .value \x7b\n            font-size: 1.2em;\n            font-weight: 600;\n            color: #1f2937;\n        \x7d\n        \n        .test-results \x7b\n            padding: 30px;\n        \x7d\n        .test-card \x7b\n            background: white;\n            border: 1px solid #e5e7eb;\n            border-radius: 8px;\n            padding: 25px;\n            margin-bottom: 20px;\n        \x7d\n        .test-header \x7b\n            display: flex;\n            justify-content: space-between;\n            align-items: center;\n            margin-bottom: 15px;\n            padding-bottom: 15px;\n            border-bottom: 2px solid #f3f4f6;\n        \x7d\n        .test-title \x7b\n            font-size: 1.3em;\n            font-weight: 600;\n            color: #1f2937;\n        \x7d\n        .status-badge \x7b\n            padding: 6px 12px;\n            border-radius: 20px;\n            font-weight: 600;\n            font-size: 0.8em;\n        \x7d\n        .status-passed \x7b\n            background: #d1fae5;\n            color: #065f46;\n        \x7d\n        .status-failed \x7b\n            background: #fee2e2;\n            color: #991b1b;\n        \x7d\n        .test-metrics \x7b\n            display: grid;\n            grid-template-columns: repeat(auto-fit, minmax(150px, 1fr));\n            gap: 15px;\n            margin-top: 15px;\n        \x7d\n        .metric \x7b\n            text-align: center;\n            padding: 10px;\n            background: #f9fafb;\n            border-radius: 6px;\n        \x7d\n        .metric-value \x7b\n            font-size: 1.4em;\n            font-weight: 700;\n            color: #3b82f6;\n        \x7d\n        .metric-label \x7b\n            font-size: 0.8em;\n            color: #6b7280;\n            margin-top: 5px;\n        \x7d\n        .footer \x7b\n            text-align: center;\n            padding: 20px;\n            background: #f8f9fa;\n            color: #666;\n        \x7d\n        .error \x7b\n            background: #fee2e2;\n            border-left: 4px solid #ef4444;\n            padding: 15px;\n            margin-top: 15px;\n            border-radius: 5px;\n            color: #991b1b;\n        \x7d\n    </style>\n</head>\n<body>\n    <div class=\"container\">\n        <div class=\"header\">\n            <h1>🚀 k6 Performance Test Report</h1>\n            <p>Generated on "

def htmlM1 : String :=
  "</p>\n        </div>\n        \n        <div class=\"summary\">\n            <div class=\"summary-card\">\n                <div class=\"label\">Total Tests</div>\n                <div class=\"value info\">"

def htmlM2 : String :=
  "</div>\n            </div>\n            <div class=\"summary-card\">\n                <div class=\"label\">Passed</div>\n                <div class=\"value success\">"

def htmlM3 : String :=
  "</div>\n            </div>\n            <div class=\"summary-card\">\n                <div class=\"label\">Failed</div>\n                <div class=\"value failure\">"

def htmlM4 : String :=
  "</div>\n            </div>\n            <div class=\"summary-card\">\n                <div class=\"label\">Success Rate</div>\n                <div class=\"value "

def htmlM5 : String :=
  "\">"

def htmlM6 : String :=
  "%</div>\n            </div>\n        </div>\n        \n        <div class=\"overview\">\n            <h2>📊 Overall Performance</h2>\n            <div class=\"overview-grid\">\n                <div class=\"overview-item\">\n                    <div class=\"label\">Total HTTP Requests</div>\n                    <div class=\"value\">"

def htmlM7 : String :=
  "</div>\n                </div>\n                <div class=\"overview-item\">\n                    <div class=\"label\">Total Iterations</div>\n                    <div class=\"value\">"

def htmlM8 : String :=
  "</div>\n                </div>\n                <div class=\"overview-item\">\n                    <div class=\"label\">Average Response Time</div>\n                    <div class=\"value\">"

def htmlM9 : String :=
  "ms</div>\n                </div>\n                <div class=\"overview-item\">\n                    <div class=\"label\">Total Duration</div>\n                    <div class=\"value\">"

def htmlM10 : String :=
  "s</div>\n                </div>\n            </div>\n        </div>\n        \n        <div class=\"test-results\">\n            <h2 style=\"margin-bottom: 20px; color: #1f2937;\">Detailed Test Results</h2>\n            \n            "

def htmlM11 : String :=
  "\n        </div>\n        \n        <div class=\"footer\">\n            <p>Generated by k6 Test Runner | "

/-- Template text after the second wall-clock read. -/
def htmlTail : String :=
  "</p>\n        </div>\n    </div>\n</body>\n</html>"

def cardS1 : String :=
  "\n                <div class=\"test-card\">\n                    <div class=\"test-header\">\n                        <div class=\"test-title\">"

def cardS2 : String :=
  "</div>\n                        <div class=\"status-badge status-"

def cardS3 : String :=
  "\">"

def cardS4 : String :=
  "</div>\n                    </div>\n                    \n                    <p style=\"color: #6b7280;\">"

def cardS5 : String :=
  "</p>\n                    <p style=\"color: #6b7280; font-size: 0.9em; margin-top: 5px;\">File: "

def cardS6 : String :=
  " | Duration: "

def cardS7 : String :=
  "s</p>\n                    \n                    "

def cardS8 : String := "\n                    \n                    "

def cardS9 : String := "\n                </div>\n            "

def gridS1 : String :=
  "\n                        <div class=\"test-metrics\">\n                            <div class=\"metric\">\n                                <div class=\"metric-value\">"

def gridS2 : String :=
  "</div>\n                                <div class=\"metric-label\">Iterations</div>\n                            </div>\n                            <div class=\"metric\">\n                                <div class=\"metric-value\">"

def gridS3 : String :=
  "</div>\n                                <div class=\"metric-label\">HTTP Requests</div>\n                            </div>\n                            <div class=\"metric\">\n                                <div class=\"metric-value\">"

def gridS4 : String :=
  "ms</div>\n                                <div class=\"metric-label\">Avg Response Time</div>\n                            </div>\n                            <div class=\"metric\">\n                                <div class=\"metric-value\">"

def gridS5 : String :=
  "ms</div>\n                                <div class=\"metric-label\">P95 Response Time</div>\n                            </div>\n                            <div class=\"metric\">\n                                <div class=\"metric-value\" style=\"color: "

def gridS6 : String :=
  "\">"

def gridS7 : String :=
  "%</div>\n                                <div class=\"metric-label\">Success Rate</div>\n                            </div>\n                            <div class=\"metric\">\n                                <div class=\"metric-value\">"

def gridS8 : String :=
  "%</div>\n                                <div class=\"metric-label\">Fail Rate</div>\n                            </div>\n                        </div>\n                        \n                        <div style=\"margin-top: 15px; display: grid; grid-template-columns: repeat(auto-fit, minmax(200px, 1fr)); gap: 10px; font-size: 0.9em; color: #6b7280;\">\n                            <div><strong>Duration Details:</strong> Min: "

def gridS9 : String :=
  "ms, Med: "

def gridS10 : String :=
  "ms, Max: "

def gridS11 : String :=
  "ms</div>\n                            <div><strong>Data:</strong> Received: "

def gridS12 : String :=
  ", Sent: "

def gridS13 : String :=
  "</div>\n                            <div><strong>VUs:</strong> Max: "

def gridS14 : String :=
  "</div>\n                            <div><strong>Checks:</strong> "

def gridS15 : String :=
  "/"

def gridS16 : String :=
  " passed</div>\n                        </div>\n                    "

def errS1 : String :=
  "\n                        <div class=\"error\">\n                            <strong>❌ Error:</strong> "

def errS2 : String :=
  "\n                        </div>\n                    "

/-- ASCII `String.prototype.toLowerCase` (status strings are ASCII). -/
def jsToLower (s : String) : String :=
  String.mk (s.data.map fun c =>
    if 'A' ≤ c && c ≤ 'Z' then Char.ofNat (c.toNat + 32) else c)

def passedCount (results : List ResultP0) : ℕ :=
  (results.filter fun r => r.status == "PASSED").length

def failedCount (results : List ResultP0) : ℕ :=
  (results.filter fun r => r.status == "FAILED").length

/-- `results.reduce((sum, r) => sum + parseFloat(r.duration), 0).toFixed(2)`. -/
def totalDurationStr (results : List ResultP0) : String :=
  jsToFixed 2 (results.foldl (fun acc r => jadd acc (jsParseFloatS r.duration)) (some (jqOfNat 0)))

/-- `(passedTests / totalTests) * 100` as a JS number (`NaN` on an empty list:
`0/0`; the numerator is a filter count, so it cannot exceed the denominator). -/
def successRateNum (results : List ResultP0) : JSNum :=
  jmul (jdiv (some (jqOfNat (passedCount results))) (some (jqOfNat results.length)))
    (some (jqOfNat 100))

/-- `((passedTests / totalTests) * 100).toFixed(1)`. -/
def successRateStr (results : List ResultP0) : String :=
  jsToFixed 1 (successRateNum results)

/-- `successRate >= 90 ? 'success' : 'failure'` where `successRate` is the
`toFixed(1)` string: JS coerces it back to a number, i.e. compares the rounded
value `⌊x·10 + 1/2⌋ / 10`; `"NaN"` coerces to `NaN`, which compares false. -/
def successRateClass (results : List ResultP0) : String :=
  match successRateNum results with
  | none => "failure"
  | some q =>
    if (900 : ℤ) ≤ jqFloor (jqAdd (jqMul q (jqOfNat 10)) ⟨1, 2, Nat.succ_pos 1⟩)
    then "success" else "failure"

/-- Accumulator of the overall-metrics `results.forEach`. -/
structure AggAcc where
  totalRequests : ℕ
  totalIterations : ℕ
  avgSum : JQ
  testCount : ℕ

/-- Body of the aggregation loop: fields accumulate only when the entry has a
(truthy) `metrics` object.  `parseFloat(test.metrics.http_req_duration.avg)`
re-parses a number through its string form, the identity on the decimal values
stored there. -/
def aggStep (acc : AggAcc) (r : ResultP0) : AggAcc :=
  match r.metrics with
  | some m =>
    ⟨acc.totalRequests + m.http_reqs, acc.totalIterations + m.iterations,
     jqAdd acc.avgSum m.http_req_duration.avg, acc.testCount + 1⟩
  | none => acc

def aggOf (results : List ResultP0) : AggAcc :=
  results.foldl aggStep ⟨0, 0, jqOfNat 0, 0⟩

/-- `avgResponseTime = testCount > 0 ? (avgResponseTime / testCount).toFixed(2) : 0`,
as interpolated into the template (the number `0` renders as `"0"`). -/
def avgResponseTimeStr (results : List ResultP0) : String :=
  let a := aggOf results
  if 0 < a.testCount then jsToFixed 2 (jdiv (some a.avgSum) (some (jqOfNat a.testCount)))
  else "0"

/-- The metric grid and details of a `PASSED` card (the template of
`test.status === 'PASSED' ? … : ''`). -/
def metricsGridHtml (m : MetricsText) : String :=
  gridS1 ++ Nat.repr m.iterations
  ++ gridS2 ++ Nat.repr m.http_reqs
  ++ gridS3 ++ jsNumToString (some m.http_req_duration.avg)
  ++ gridS4 ++ jsNumToString (some m.http_req_duration.p95)
  ++ gridS5 ++ (if jqLe (jqOfNat 95) m.checks.rate then "#10b981" else "#ef4444")
  ++ gridS6 ++ jsNumToString (some m.checks.rate)
  ++ gridS7 ++ jsNumToString (some m.http_req_failed_rate)
  ++ gridS8 ++ jsNumToString (some m.http_req_duration.min)
  ++ gridS9 ++ jsNumToString (some m.http_req_duration.med)
  ++ gridS10 ++ jsNumToString (some m.http_req_duration.max)
  ++ gridS11 ++ m.data_received
  ++ gridS12 ++ m.data_sent
  ++ gridS13 ++ Nat.repr m.vus_max
  ++ gridS14 ++ Nat.repr m.checks.passed
  ++ gridS15 ++ Nat.repr m.checks.total
  ++ gridS16

/-- The `test.status === 'PASSED' ? <grid> : ''` branch; `none` models the
`TypeError` of dereferencing `test.metrics` on a `PASSED` entry that has no
metrics object (unreachable from this runner's executor). -/
def cardPassedBlock (t : ResultP0) : Option String :=
  if t.status == "PASSED" then
    match t.metrics with
    | some m => some (metricsGridHtml m)
    | none => none
  else some ""

/-- The `test.error ? <error panel> : ''` branch (a present but empty error
string is falsy and renders nothing). -/
def cardErrorBlock (t : ResultP0) : String :=
  match t.error with
  | some e => if e = "" then "" else errS1 ++ e ++ errS2
  | none => ""

/-- One entry of `results.map(test => …)` in the template. -/
def cardHtml (t : ResultP0) : Option String :=
  (cardPassedBlock t).map fun pb =>
    cardS1 ++ t.name ++ cardS2 ++ jsToLower t.status ++ cardS3 ++ t.status
    ++ cardS4 ++ t.description ++ cardS5 ++ t.file ++ cardS6 ++ t.duration
    ++ cardS7 ++ pb ++ cardS8 ++ cardErrorBlock t ++ cardS9

/-- `results.map(test => …).join('')`. -/
def cardsJoined (results : List ResultP0) : Option String :=
  (seqOpt (results.map cardHtml)).map String.join

/-- The template between the first wall-clock read and the second. -/
def htmlBodyMain (results : List ResultP0) (cards : String) : String :=
  htmlM1 ++ Nat.repr results.length
  ++ htmlM2 ++ Nat.repr (passedCount results)
  ++ htmlM3 ++ Nat.repr (failedCount results)
  ++ htmlM4 ++ successRateClass results
  ++ htmlM5 ++ successRateStr results
  ++ htmlM6 ++ Nat.repr (aggOf results).totalRequests
  ++ htmlM7 ++ Nat.repr (aggOf results).totalIterations
  ++ htmlM8 ++ avgResponseTimeStr results
  ++ htmlM9 ++ totalDurationStr results
  ++ htmlM10 ++ cards
  ++ htmlM11

/-- `generateHTMLReport(results, timestamp)` of the console-scan runner, as a
function of the `results` list, the session `timestamp` label and the wall-clock
string `now` read by `new Date().toLocaleString()` at render time (the template
reads the clock twice within the same render; both reads are modelled by the one
explicit `now` value).  `none` models the `TypeError` thrown while rendering a
`PASSED` entry without metrics (no document is produced then). -/
def generateHTMLReport (results : List ResultP0) (timestamp : String) (now : String) :
    Option String :=
  (cardsJoined results).map fun cards =>
    htmlHead1 ++ timestamp ++ htmlHead2 ++ now
      ++ htmlBodyMain results cards ++ now ++ htmlTail

/-!
## Event-Stream strategy

Modelled from the spec: the repository invokes `k6 run --out json=<file>` (the
event-stream producer) but the consumer of that stream is not among the sources
under `src/`; §4.2 and §6 of the specification define its behaviour, which the
following definitions transcribe. -/

/-- Modelled from the spec: one record of the event stream,
`{type:"Metric", metric:<name>, data:{type:<"counter"|"rate"|"trend">, value:<number>}}`. -/
structure ERecord where
  metric : String
  kind : String
  value : JQ

/-- Value order on `JQ` (denominators are positive). -/
def jqLeP (a b : JQ) : Prop := a.num * (b.den : ℤ) ≤ b.num * (a.den : ℤ)

instance : DecidableRel jqLeP := fun a b =>
  inferInstanceAs (Decidable (a.num * (b.den : ℤ) ≤ b.num * (a.den : ℤ)))

instance : IsTotal JQ jqLeP := ⟨fun a b => Int.le_total _ _⟩

instance : IsTrans JQ jqLeP := by
  refine ⟨fun a b c h1 h2 => ?_⟩
  have hb : (0 : ℤ) < (b.den : ℤ) := by exact_mod_cast b.dpos
  have ha : (0 : ℤ) < (a.den : ℤ) := by exact_mod_cast a.dpos
  have hc : (0 : ℤ) < (c.den : ℤ) := by exact_mod_cast c.dpos
  unfold jqLeP at *
  nlinarith [mul_le_mul_of_nonneg_right h1 hc.le, mul_le_mul_of_nonneg_right h2 ha.le]

def jqSum (l : List JQ) : JQ := l.foldl jqAdd (jqOfNat 0)

/-- Modelled from the spec: duration statistics once the run completes — the
accumulated values sorted ascending and reduced to `avg` (arithmetic mean),
`min` (first), `max` (last) and `p95` (value at index `⌊n · 0.95⌋`); with no
accumulated values every field keeps the documented zero default. -/
structure TrendStats where
  avg : JQ
  min : JQ
  max : JQ
  p95 : JQ

def analyzeTrend (vals : List JQ) : TrendStats :=
  if vals.length = 0 then ⟨jqOfNat 0, jqOfNat 0, jqOfNat 0, jqOfNat 0⟩
  else
    let sorted := List.insertionSort jqLeP vals
    ⟨jqDivQ (jqSum vals) (jqOfNat vals.length),
     sorted.headD (jqOfNat 0),
     sorted.getLastD (jqOfNat 0),
     sorted.getD (vals.length * 95 / 100) (jqOfNat 0)⟩

/-- Modelled from the spec: the values accumulated for duration-kind records of
one metric name, in stream order. -/
def trendValues (recs : List ERecord) (name : String) : List JQ :=
  (recs.filter fun r => r.metric == name && r.kind == "trend").map (·.value)

/-- Modelled from the spec: counter-kind records are tallied by occurrence. -/
def counterCount (recs : List ERecord) (name : String) : ℕ :=
  (recs.filter fun r => r.metric == name && r.kind == "counter").length

/-- Modelled from the spec: rate-kind records tally pass vs fail by truthiness
of the sampled value. -/
def rateTally (recs : List ERecord) (name : String) : ℕ × ℕ :=
  let l := recs.filter fun r => r.metric == name && r.kind == "rate"
  ((l.filter fun r => r.value.num ≠ 0).length, (l.filter fun r => r.value.num = 0).length)

/-- Modelled from the spec: the Event-Stream strategy's canonical result for the
metrics the reporting pipeline consumes (`rate.total = passed + failed`). -/
structure EventMetrics where
  httpRequests : ℕ
  duration : TrendStats
  checksPassed : ℕ
  checksFailed : ℕ
  checksTotal : ℕ

def eventStreamExtract (recs : List ERecord) : EventMetrics :=
  ⟨counterCount recs "http_reqs",
   analyzeTrend (trendValues recs "http_req_duration"),
   (rateTally recs "checks").1,
   (rateTally recs "checks").2,
   (rateTally recs "checks").1 + (rateTally recs "checks").2⟩

/-!
## Helper lemmas -/

theorem jq_den_ne (q : JQ) : ((q.den : ℚ)) ≠ 0 := by
  have := q.dpos
  positivity

theorem val_ofNat (n : ℕ) : (jqOfNat n).val = (n : ℚ) := by
  simp [jqOfNat, JQ.val]

theorem val_add (a b : JQ) : (jqAdd a b).val = a.val + b.val := by
  unfold jqAdd JQ.val
  have ha := jq_den_ne a
  have hb := jq_den_ne b
  field_simp
  try push_cast
  try ring

theorem val_mul (a b : JQ) : (jqMul a b).val = a.val * b.val := by
  unfold jqMul JQ.val
  push_cast
  try rw [div_mul_div_comm]

theorem val_divQ (a b : JQ) (h : b.num ≠ 0) : (jqDivQ a b).val = a.val / b.val := by
  unfold jqDivQ JQ.val
  rcases lt_trichotomy b.num 0 with hb | hb | hb
  · rw [dif_neg (by omega), dif_pos hb]
    have htn : ((-b.num).toNat : ℤ) = -b.num := Int.toNat_of_nonneg (by omega)
    have hbq : ((-b.num).toNat : ℚ) = -(b.num : ℚ) := by
      exact_mod_cast congrArg (fun z : ℤ => (z : ℚ)) htn
    have ha := jq_den_ne a
    have hb2 := jq_den_ne b
    have hbn : (b.num : ℚ) ≠ 0 := by exact_mod_cast h
    push_cast [hbq]
    field_simp
    try ring
  · omega
  · rw [dif_pos hb]
    have htn : ((b.num.toNat) : ℤ) = b.num := Int.toNat_of_nonneg (by omega)
    have hbq : ((b.num.toNat) : ℚ) = (b.num : ℚ) := by
      exact_mod_cast congrArg (fun z : ℤ => (z : ℚ)) htn
    have ha := jq_den_ne a
    have hb2 := jq_den_ne b
    have hbn : (b.num : ℚ) ≠ 0 := by exact_mod_cast h
    push_cast [hbq]
    field_simp
    try ring

theorem jqFloor_eq (q : JQ) : jqFloor q = ⌊q.val⌋ := by
  unfold jqFloor JQ.val
  rw [Rat.floor_intCast_div_natCast, Int.fdiv_eq_ediv _ (by exact_mod_cast q.dpos.le)]

theorem val_half (h : 0 < 2) : (⟨1, 2, h⟩ : JQ).val = 1 / 2 := by
  unfold JQ.val
  norm_num

/-- `toFixed(d)` depends only on `⌊x·10^d + 1/2⌋`. -/
theorem jsToFixed_val (d : ℕ) (q : JQ) :
    jsToFixed d (some q) =
      (if ⌊q.val * 10 ^ d + 1 / 2⌋ < 0 then "-" ++ fixedDigits (⌊q.val * 10 ^ d + 1 / 2⌋).natAbs d
       else fixedDigits (⌊q.val * 10 ^ d + 1 / 2⌋).toNat d) := by
  show (let n := jqFloor (jqAdd (jqMul q (jqOfNat (10 ^ d))) ⟨1, 2, Nat.succ_pos 1⟩);
    if n < 0 then "-" ++ fixedDigits n.natAbs d else fixedDigits n.toNat d) = _
  rw [jqFloor_eq, val_add, val_mul, val_ofNat, val_half]
  push_cast
  rfl

theorem stepOpt_const {σ α : Type} (o : Option α) (m : σ) :
    stepOpt o m (fun _ => m) = m := by cases o <;> rfl

theorem stepOpt_hr (o : Option (List Char)) (m : MetricsText) (f : List Char → MetricsText) :
    (stepOpt o m f).http_reqs = stepOpt o m.http_reqs (fun v => (f v).http_reqs) := by
  cases o <;> rfl

theorem stepOpt_it (o : Option (List Char)) (m : MetricsText) (f : List Char → MetricsText) :
    (stepOpt o m f).iterations = stepOpt o m.iterations (fun v => (f v).iterations) := by
  cases o <;> rfl

theorem stepOpt_dur (o : Option (List Char)) (m : MetricsText) (f : List Char → MetricsText) :
    (stepOpt o m f).http_req_duration =
      stepOpt o m.http_req_duration (fun v => (f v).http_req_duration) := by
  cases o <;> rfl

theorem stepOpt_hf (o : Option (List Char)) (m : MetricsText) (f : List Char → MetricsText) :
    (stepOpt o m f).http_req_failed = stepOpt o m.http_req_failed (fun v => (f v).http_req_failed) := by
  cases o <;> rfl

theorem stepOpt_hfr (o : Option (List Char)) (m : MetricsText) (f : List Char → MetricsText) :
    (stepOpt o m f).http_req_failed_rate =
      stepOpt o m.http_req_failed_rate (fun v => (f v).http_req_failed_rate) := by
  cases o <;> rfl

theorem stepOpt_ck (o : Option (List Char)) (m : MetricsText) (f : List Char → MetricsText) :
    (stepOpt o m f).checks = stepOpt o m.checks (fun v => (f v).checks) := by
  cases o <;> rfl

theorem stepOpt_vm (o : Option (List Char)) (m : MetricsText) (f : List Char → MetricsText) :
    (stepOpt o m f).vus_max = stepOpt o m.vus_max (fun v => (f v).vus_max) := by
  cases o <;> rfl

theorem stepOpt_dr (o : Option (List Char)) (m : MetricsText) (f : List Char → MetricsText) :
    (stepOpt o m f).data_received = stepOpt o m.data_received (fun v => (f v).data_received) := by
  cases o <;> rfl

theorem stepOpt_ds (o : Option (List Char)) (m : MetricsText) (f : List Char → MetricsText) :
    (stepOpt o m f).data_sent = stepOpt o m.data_sent (fun v => (f v).data_sent) := by
  cases o <;> rfl

theorem stepOptRA_hr {α : Type} (o : Option α) (m : MetricsRA) (f : α → MetricsRA) :
    (stepOpt o m f).http_reqs = stepOpt o m.http_reqs (fun v => (f v).http_reqs) := by
  cases o <;> rfl

theorem stepOptRA_it {α : Type} (o : Option α) (m : MetricsRA) (f : α → MetricsRA) :
    (stepOpt o m f).iterations = stepOpt o m.iterations (fun v => (f v).iterations) := by
  cases o <;> rfl

theorem stepOptRA_dur {α : Type} (o : Option α) (m : MetricsRA) (f : α → MetricsRA) :
    (stepOpt o m f).http_req_duration =
      stepOpt o m.http_req_duration (fun v => (f v).http_req_duration) := by
  cases o <;> rfl

theorem stepOptRA_hf {α : Type} (o : Option α) (m : MetricsRA) (f : α → MetricsRA) :
    (stepOpt o m f).http_req_failed =
      stepOpt o m.http_req_failed (fun v => (f v).http_req_failed) := by
  cases o <;> rfl

theorem stepOptRA_hfr {α : Type} (o : Option α) (m : MetricsRA) (f : α → MetricsRA) :
    (stepOpt o m f).http_req_failed_rate =
      stepOpt o m.http_req_failed_rate (fun v => (f v).http_req_failed_rate) := by
  cases o <;> rfl

theorem stepOptRA_ck {α : Type} (o : Option α) (m : MetricsRA) (f : α → MetricsRA) :
    (stepOpt o m f).checks = stepOpt o m.checks (fun v => (f v).checks) := by
  cases o <;> rfl

theorem stepOptRA_vm {α : Type} (o : Option α) (m : MetricsRA) (f : α → MetricsRA) :
    (stepOpt o m f).vus_max = stepOpt o m.vus_max (fun v => (f v).vus_max) := by
  cases o <;> rfl

theorem stepOptRA_dr {α : Type} (o : Option α) (m : MetricsRA) (f : α → MetricsRA) :
    (stepOpt o m f).data_received = stepOpt o m.data_received (fun v => (f v).data_received) := by
  cases o <;> rfl

theorem stepOptRA_ds {α : Type} (o : Option α) (m : MetricsRA) (f : α → MetricsRA) :
    (stepOpt o m f).data_sent = stepOpt o m.data_sent (fun v => (f v).data_sent) := by
  cases o <;> rfl

/-!
## Claim theorems -/

/-- C3: for every scenario whose subprocess invocation fails (thrown invocation
error / non-zero exit), either runner's executor appends a `RunResult` with
status `FAILED`, no metrics, and the captured message preserved in the `error`
field, and proceeds to the next scenario rather than aborting: after a full run
the result list has exactly one entry per scenario, in execution order. -/
theorem c3_failed_scenario_recorded_suite_continues :
    (∀ l : List (TestDef × OutcomeP0), (runSuiteP0 l).length = l.length) ∧
    (∀ l : List (TestDef × OutcomeRA), (runSuiteRA l).length = l.length) ∧
    (∀ (l : List (TestDef × OutcomeP0)) (i : ℕ) (h : i < l.length) (t : TestDef)
        (msg d ts : String), l.get ⟨i, h⟩ = (t, OutcomeP0.err msg d ts) →
      (runSuiteP0 l).get ⟨i, by simpa [runSuiteP0] using h⟩ =
        ⟨t.name, t.file, t.description, "FAILED", d, none, some msg, ts⟩) ∧
    (∀ (l : List (TestDef × OutcomeRA)) (i : ℕ) (h : i < l.length) (t : TestDef)
        (msg d ts : String), l.get ⟨i, h⟩ = (t, OutcomeRA.err msg d ts) →
      (runSuiteRA l).get ⟨i, by simpa [runSuiteRA] using h⟩ =
        ⟨t.name, t.file, t.description, "FAILED", d, none, some msg, ts⟩) := by
  refine ⟨fun l => by simp [runSuiteP0], fun l => by simp [runSuiteRA], ?_, ?_⟩
  · intro l i h t msg d ts heq
    have hstep : (runSuiteP0 l).get ⟨i, by simpa [runSuiteP0] using h⟩ =
        runTestP0 (l.get ⟨i, h⟩).1 (l.get ⟨i, h⟩).2 := by
      simp [runSuiteP0, List.get_eq_getElem, List.getElem_map]
    rw [hstep, heq]
    rfl
  · intro l i h t msg d ts heq
    have hstep : (runSuiteRA l).get ⟨i, by simpa [runSuiteRA] using h⟩ =
        runTestRA (l.get ⟨i, h⟩).1 (l.get ⟨i, h⟩).2 := by
      simp [runSuiteRA, List.get_eq_getElem, List.getElem_map]
    rw [hstep, heq]
    rfl

/-- Witness for C3 at a concrete failing scenario. -/
theorem c3_witness :
    (runSuiteP0 [(⟨"Login Test", "tests/login.js", "Single user login authentication test"⟩,
        OutcomeP0.err "connection refused" "0.50" "2025-01-01T00:00:00.000Z")]).get
      ⟨0, by simp [runSuiteP0]⟩ =
      ⟨"Login Test", "tests/login.js", "Single user login authentication test",
       "FAILED", "0.50", none, some "connection refused", "2025-01-01T00:00:00.000Z"⟩ :=
  c3_failed_scenario_recorded_suite_continues.2.2.1 _ 0 (by simp) _
    "connection refused" "0.50" "2025-01-01T00:00:00.000Z" rfl

/-- C10: every entry either runner appends has exactly one of two shapes —
`PASSED` with a metrics property present and no error property, or `FAILED` with
a string error property present and no metrics property — and consequently
`status = "FAILED"` holds iff the error property is present. -/
theorem c10_result_shape_invariant :
    (∀ (l : List (TestDef × OutcomeP0)) (r : ResultP0), r ∈ runSuiteP0 l →
      ((r.status = "PASSED" ∧ r.metrics.isSome = true ∧ r.error = none) ∨
       (r.status = "FAILED" ∧ r.metrics = none ∧ r.error.isSome = true)) ∧
      (r.status = "FAILED" ↔ r.error ≠ none)) ∧
    (∀ (l : List (TestDef × OutcomeRA)) (r : ResultRA), r ∈ runSuiteRA l →
      ((r.status = "PASSED" ∧ r.metrics.isSome = true ∧ r.error = none) ∨
       (r.status = "FAILED" ∧ r.metrics = none ∧ r.error.isSome = true)) ∧
      (r.status = "FAILED" ↔ r.error ≠ none)) := by
  constructor
  · intro l r hr
    obtain ⟨⟨t, oc⟩, _, rfl⟩ := List.mem_map.1 hr
    cases oc <;> simp [runTestP0]
  · intro l r hr
    obtain ⟨⟨t, oc⟩, _, rfl⟩ := List.mem_map.1 hr
    cases oc <;> simp [runTestRA]

/-- Witness for C10 at a concrete failed entry. -/
theorem c10_witness :
    (((⟨"A", "f", "d", "FAILED", "1", none, some "boom", "T"⟩ : ResultP0).status = "PASSED" ∧
      (⟨"A", "f", "d", "FAILED", "1", none, some "boom", "T"⟩ : ResultP0).metrics.isSome = true ∧
      (⟨"A", "f", "d", "FAILED", "1", none, some "boom", "T"⟩ : ResultP0).error = none) ∨
     ((⟨"A", "f", "d", "FAILED", "1", none, some "boom", "T"⟩ : ResultP0).status = "FAILED" ∧
      (⟨"A", "f", "d", "FAILED", "1", none, some "boom", "T"⟩ : ResultP0).metrics = none ∧
      (⟨"A", "f", "d", "FAILED", "1", none, some "boom", "T"⟩ : ResultP0).error.isSome = true)) ∧
    ((⟨"A", "f", "d", "FAILED", "1", none, some "boom", "T"⟩ : ResultP0).status = "FAILED" ↔
      (⟨"A", "f", "d", "FAILED", "1", none, some "boom", "T"⟩ : ResultP0).error ≠ none) :=
  c10_result_shape_invariant.1 [(⟨"A", "f", "d"⟩, OutcomeP0.err "boom" "1" "T")] _
    (by simp [runSuiteP0, runTestP0])

/-- C1 (code bug): the CSV emitter dereferences `test.metrics.iterations` in its
row template, but the catch branch pushes `FAILED` entries without a metrics
property, so on any result list containing a failed scenario `exportToCSV`
throws a `TypeError` and produces no CSV at all — there is no `FAILED` data row.
On lists whose entries all carry metrics it does produce the fixed header and one
row per entry, as the second conjunct shows on a passed scenario. -/
theorem c1_csv_throws_on_failed_entry :
    exportToCSV (runSuiteP0 [(⟨"Login Test", "tests/login.js", "Single user login authentication test"⟩,
        OutcomeP0.err "connection refused" "0.50" "2025-01-01T00:00:00.000Z")]) "T" = none ∧
    exportToCSV (runSuiteP0 [(⟨"Login Test", "tests/login.js", "Single user login authentication test"⟩,
        OutcomeP0.ok "" "1.00" "2025-01-01T00:00:00.000Z")]) "T" =
      some (csvHeaders ++ "\"Login Test\",PASSED,1.00,0,0,0,0,0,0,2025-01-01T00:00:00.000Z") := by
  constructor
  · rfl
  · decide

/-- Cancellation through a twice-repeated middle segment. -/
theorem append_mid_inj {α : Type} (A B C n1 n2 : List α)
    (h : A ++ (n1 ++ (B ++ (n1 ++ C))) = A ++ (n2 ++ (B ++ (n2 ++ C)))) : n1 = n2 := by
  have h2 := List.append_cancel_left h
  have hlen : n1.length = n2.length := by
    have hl := congrArg List.length h2
    simp [List.length_append] at hl
    omega
  exact (List.append_inj h2 hlen).1

/-- C2 (counterexample): two renders with identical result list and timestamp
label but different render-time wall-clock strings produce different documents —
the template embeds `new Date().toLocaleString()` (header and footer), a
non-reproducible value beyond the explicitly passed timestamp label. -/
theorem c2_counterexample :
    generateHTMLReport [] "2025-01-01T00-00-00-000Z" "1/1/2025, 10:00:00 AM" ≠
      generateHTMLReport [] "2025-01-01T00-00-00-000Z" "1/1/2025, 10:00:00 PM " := by
  intro h
  simp only [generateHTMLReport, cardsJoined, seqOpt, List.map_nil, Option.map_some',
    Option.some.injEq] at h
  have hl := congrArg String.length h
  have e1 : ("1/1/2025, 10:00:00 AM" : String).length = 21 := rfl
  have e2 : ("1/1/2025, 10:00:00 PM " : String).length = 22 := rfl
  simp only [String.length_append, e1, e2] at hl
  omega

/-- C2 (amended): the rendered document is a deterministic function of the
result list, the timestamp label and the render-time wall-clock string.  Two
renders with identical inputs and clock reading are byte-identical (functional
determinism); and whenever two renders with the same results and timestamp agree
byte-for-byte, their wall-clock strings were already equal — the clock is the
only further input the document depends on, and it is embedded injectively. -/
theorem c2_html_deterministic_given_clock (results : List ResultP0)
    (ts now1 now2 : String)
    (hs : (generateHTMLReport results ts now1).isSome = true)
    (h : generateHTMLReport results ts now1 = generateHTMLReport results ts now2) :
    now1 = now2 := by
  rcases hc : cardsJoined results with _ | cards
  · simp only [generateHTMLReport, hc, Option.map_none', Option.isSome_none] at hs
    exact absurd hs (by simp)
  · simp only [generateHTMLReport, hc, Option.map_some', Option.some.injEq] at h
    have hd := congrArg String.data h
    simp only [String.data_append] at hd
    have := append_mid_inj (htmlHead1.data ++ ts.data ++ htmlHead2.data)
      ((htmlBodyMain results cards).data) htmlTail.data now1.data now2.data (by
        simpa [List.append_assoc] using hd)
    cases now1
    cases now2
    exact congrArg String.mk (by simpa using this)

/-- Witness for C2 at concrete inputs. -/
theorem c2_witness : ("1/1/2025, 10:00:00 AM" : String) = "1/1/2025, 10:00:00 AM" :=
  c2_html_deterministic_given_clock [] "2025-01-01T00-00-00-000Z"
    "1/1/2025, 10:00:00 AM" "1/1/2025, 10:00:00 AM" rfl rfl

/-- The aggregation fold, characterised by independent filter/sum expressions. -/
theorem aggFold (l : List ResultP0) (acc : AggAcc) :
    l.foldl aggStep acc =
      ⟨acc.totalRequests + ((l.filterMap fun r => r.metrics.map (·.http_reqs)).sum),
       acc.totalIterations + ((l.filterMap fun r => r.metrics.map (·.iterations)).sum),
       (l.filterMap fun r => r.metrics.map (·.http_req_duration.avg)).foldl jqAdd acc.avgSum,
       acc.testCount + (l.filterMap fun r => r.metrics.map (·.http_req_duration.avg)).length⟩ := by
  induction l generalizing acc with
  | nil => simp
  | cons r t ih =>
    rcases hm : r.metrics with _ | m
    · simp only [List.foldl_cons, aggStep, hm, List.filterMap_cons, Option.map_none']
      exact ih acc
    · simp only [List.foldl_cons, aggStep, hm, List.filterMap_cons, Option.map_some']
      rw [ih]
      simp [List.sum_cons]
      constructor
      · omega
      constructor
      · omega
      omega

/-- C7: the aggregate average response time is the arithmetic mean of
`metrics.http_req_duration.avg` over exactly the results that carry a metrics
object — the denominator is the count of such results, not the scenario count —
and when no result has metrics the rendered value is `0`. -/
theorem c7_avg_response_time_mean_over_metrics_only (results : List ResultP0) :
    avgResponseTimeStr results =
      (let avgs := results.filterMap fun r => r.metrics.map (·.http_req_duration.avg)
       if avgs.length = 0 then "0"
       else jsToFixed 2 (some (jqDivQ (avgs.foldl jqAdd (jqOfNat 0)) (jqOfNat avgs.length)))) := by
  unfold avgResponseTimeStr aggOf
  rw [aggFold]
  simp only [Nat.zero_add]
  rcases Nat.eq_zero_or_pos (results.filterMap fun r =>
      r.metrics.map (·.http_req_duration.avg)).length with hz | hp
  · simp [hz]
  · rw [if_pos hp, if_neg (by omega)]
    unfold jdiv
    dsimp only
    rw [if_neg (by simp only [jqOfNat]; omega)]

/-- Rendered length of a `toFixed(1)` body. -/
theorem fixedDigits_one_length (m : ℕ) :
    (fixedDigits m 1).length = (Nat.repr (m / 10 ^ 1)).length + 2 := by
  have d1 : ∀ k, k < 10 → (Nat.repr k).length = 1 := by decide
  unfold fixedDigits
  rw [if_neg (by omega)]
  dsimp only
  rw [d1 (m % 10 ^ 1) (by omega)]
  have hz : (String.mk (List.replicate (1 - 1) '0')).length = 0 := rfl
  simp only [String.length_append, hz]
  have hd : ("." : String).length = 1 := rfl
  rw [hd]
  have h3 := d1 (m % 10 ^ 1) (by omega)
  omega

/-- C5 (amended): for every nonempty result list the success rate is
`round(passed/total·100, 1)` as rendered by `toFixed(1)`; it equals `"100.0"`
whenever every result is `PASSED`, and — for lists of fewer than 2000 results —
only then.  The empty list yields `"NaN"` (`0/0`), not `100.0` (see the
counterexample), and on lists of ≥ 2000 results `toFixed(1)` can round
`1999/2000` up to `"100.0"`, so the converse carries the size bound. -/
theorem c5_success_rate_formula (results : List ResultP0) (hne : results ≠ []) :
    successRateStr results =
      jsToFixed 1 (some (jqMul (jqDivQ (jqOfNat (passedCount results))
        (jqOfNat results.length)) (jqOfNat 100))) ∧
    ((∀ r ∈ results, r.status = "PASSED") → successRateStr results = "100.0") ∧
    (results.length < 2000 → successRateStr results = "100.0" →
      ∀ r ∈ results, r.status = "PASSED") := by
  have ht0 : results.length ≠ 0 := fun h => hne (List.length_eq_zero.1 h)
  have hform : successRateStr results =
      jsToFixed 1 (some (jqMul (jqDivQ (jqOfNat (passedCount results))
        (jqOfNat results.length)) (jqOfNat 100))) := by
    unfold successRateStr successRateNum jdiv
    dsimp only
    rw [if_neg (by simp only [jqOfNat]; omega)]
    rfl
  have hple : passedCount results ≤ results.length := List.length_filter_le _ _
  refine ⟨hform, ?_, ?_⟩
  · intro hall
    have hp : passedCount results = results.length := by
      unfold passedCount
      rw [List.filter_eq_self.2 (fun r hr => by simp [hall r hr])]
    rw [hform, hp, jsToFixed_val]
    have hv : (jqMul (jqDivQ (jqOfNat results.length) (jqOfNat results.length))
        (jqOfNat 100)).val = 100 := by
      rw [val_mul, val_divQ _ _ (by simp only [jqOfNat]; omega)]
      simp only [val_ofNat]
      rw [div_self (by exact_mod_cast ht0)]
      norm_num
    rw [hv]
    have hfl : ⌊(100 : ℚ) * 10 ^ 1 + 1 / 2⌋ = 1000 := by
      rw [Int.floor_eq_iff]
      constructor <;> norm_num
    rw [hfl]
    decide
  · intro hlt hs r hr
    by_contra hnp
    have hplt : passedCount results < results.length := by
      unfold passedCount
      exact List.length_filter_lt_length_iff_exists.2 ⟨r, hr, by simpa using hnp⟩
    rw [hform, jsToFixed_val] at hs
    set p := passedCount results with hpdef
    set t := results.length with htdef
    have hv : (jqMul (jqDivQ (jqOfNat p) (jqOfNat t)) (jqOfNat 100)).val =
        (p : ℚ) / (t : ℚ) * 100 := by
      rw [val_mul, val_divQ _ _ (by simp only [jqOfNat]; omega)]
      simp only [val_ofNat]
      norm_num
    rw [hv] at hs
    have htq : (0 : ℚ) < (t : ℚ) := by exact_mod_cast Nat.pos_of_ne_zero ht0
    have hlt2 : (p : ℚ) / (t : ℚ) * 100 * 10 ^ 1 + 1 / 2 < 1000 := by
      rw [div_mul_eq_mul_div, div_mul_eq_mul_div, div_add' _ _ _ (ne_of_gt htq),
        div_lt_iff₀ htq]
      have hc1 : (p : ℚ) + 1 ≤ (t : ℚ) := by exact_mod_cast hplt
      have hc2 : (t : ℚ) < 2000 := by exact_mod_cast hlt
      nlinarith
    have hge : (0 : ℚ) ≤ (p : ℚ) / (t : ℚ) * 100 * 10 ^ 1 + 1 / 2 := by positivity
    have hn1000 : ⌊(p : ℚ) / (t : ℚ) * 100 * 10 ^ 1 + 1 / 2⌋ < 1000 := Int.floor_lt.2 (by
      exact_mod_cast hlt2)
    have hn0 : 0 ≤ ⌊(p : ℚ) / (t : ℚ) * 100 * 10 ^ 1 + 1 / 2⌋ := Int.floor_nonneg.2 hge
    rw [if_neg (by omega)] at hs
    set m := (⌊(p : ℚ) / (t : ℚ) * 100 * 10 ^ 1 + 1 / 2⌋).toNat with hmdef
    have hm : m ≤ 999 := by omega
    have d2 : ∀ k, k < 100 → (Nat.repr k).length ≤ 2 := by decide
    have hsl := congrArg String.length hs
    rw [fixedDigits_one_length] at hsl
    have h2 : (Nat.repr (m / 10 ^ 1)).length ≤ 2 := d2 _ (by omega)
    have h5 : ("100.0" : String).length = 5 := rfl
    rw [h5] at hsl
    omega

/-- Witness for C5 at a concrete single-result list. -/
theorem c5_witness :
    (successRateStr [⟨"A", "f", "d", "PASSED", "1", none, none, "T"⟩] =
      jsToFixed 1 (some (jqMul (jqDivQ
        (jqOfNat (passedCount [⟨"A", "f", "d", "PASSED", "1", none, none, "T"⟩]))
        (jqOfNat ([⟨"A", "f", "d", "PASSED", "1", none, none, "T"⟩] : List ResultP0).length))
        (jqOfNat 100)))) ∧
    ((∀ r ∈ [(⟨"A", "f", "d", "PASSED", "1", none, none, "T"⟩ : ResultP0)],
        r.status = "PASSED") →
      successRateStr [⟨"A", "f", "d", "PASSED", "1", none, none, "T"⟩] = "100.0") ∧
    (([(⟨"A", "f", "d", "PASSED", "1", none, none, "T"⟩ : ResultP0)]).length < 2000 →
      successRateStr [⟨"A", "f", "d", "PASSED", "1", none, none, "T"⟩] = "100.0" →
      ∀ r ∈ [(⟨"A", "f", "d", "PASSED", "1", none, none, "T"⟩ : ResultP0)],
        r.status = "PASSED") :=
  c5_success_rate_formula [⟨"A", "f", "d", "PASSED", "1", none, none, "T"⟩] (by simp)

/-- C5 (counterexample): on the empty list — where "every result is PASSED"
holds vacuously — the code renders `(0/0·100).toFixed(1) = "NaN"`, not
`"100.0"`, so the claimed equivalence fails as stated. -/
theorem c5_counterexample :
    successRateStr [] = "NaN" ∧
    (∀ r ∈ ([] : List ResultP0), r.status = "PASSED") ∧
    successRateStr [] ≠ "100.0" := by
  refine ⟨rfl, by simp, by decide⟩

attribute [ext] MetricsText DurJQ ChecksT MetricsRA DurRA ChecksRA

theorem stepOptD_avg {α : Type} (o : Option α) (m : DurJQ) (f : α → DurJQ) :
    (stepOpt o m f).avg = stepOpt o m.avg (fun v => (f v).avg) := by cases o <;> rfl

theorem stepOptD_min {α : Type} (o : Option α) (m : DurJQ) (f : α → DurJQ) :
    (stepOpt o m f).min = stepOpt o m.min (fun v => (f v).min) := by cases o <;> rfl

theorem stepOptD_max {α : Type} (o : Option α) (m : DurJQ) (f : α → DurJQ) :
    (stepOpt o m f).max = stepOpt o m.max (fun v => (f v).max) := by cases o <;> rfl

theorem stepOptD_p95 {α : Type} (o : Option α) (m : DurJQ) (f : α → DurJQ) :
    (stepOpt o m f).p95 = stepOpt o m.p95 (fun v => (f v).p95) := by cases o <;> rfl

theorem stepOptD_med {α : Type} (o : Option α) (m : DurJQ) (f : α → DurJQ) :
    (stepOpt o m f).med = stepOpt o m.med (fun v => (f v).med) := by cases o <;> rfl

theorem stepOptC_total {α : Type} (o : Option α) (m : ChecksT) (f : α → ChecksT) :
    (stepOpt o m f).total = stepOpt o m.total (fun v => (f v).total) := by cases o <;> rfl

theorem stepOptC_passed {α : Type} (o : Option α) (m : ChecksT) (f : α → ChecksT) :
    (stepOpt o m f).passed = stepOpt o m.passed (fun v => (f v).passed) := by cases o <;> rfl

theorem stepOptC_failed {α : Type} (o : Option α) (m : ChecksT) (f : α → ChecksT) :
    (stepOpt o m f).failed = stepOpt o m.failed (fun v => (f v).failed) := by cases o <;> rfl

theorem stepOptC_rate {α : Type} (o : Option α) (m : ChecksT) (f : α → ChecksT) :
    (stepOpt o m f).rate = stepOpt o m.rate (fun v => (f v).rate) := by cases o <;> rfl

theorem stepOptDR_avg {α : Type} (o : Option α) (m : DurRA) (f : α → DurRA) :
    (stepOpt o m f).avg = stepOpt o m.avg (fun v => (f v).avg) := by cases o <;> rfl

theorem stepOptDR_min {α : Type} (o : Option α) (m : DurRA) (f : α → DurRA) :
    (stepOpt o m f).min = stepOpt o m.min (fun v => (f v).min) := by cases o <;> rfl

theorem stepOptDR_max {α : Type} (o : Option α) (m : DurRA) (f : α → DurRA) :
    (stepOpt o m f).max = stepOpt o m.max (fun v => (f v).max) := by cases o <;> rfl

theorem stepOptDR_p95 {α : Type} (o : Option α) (m : DurRA) (f : α → DurRA) :
    (stepOpt o m f).p95 = stepOpt o m.p95 (fun v => (f v).p95) := by cases o <;> rfl

theorem stepOptDR_med {α : Type} (o : Option α) (m : DurRA) (f : α → DurRA) :
    (stepOpt o m f).med = stepOpt o m.med (fun v => (f v).med) := by cases o <;> rfl

theorem stepOptCR_total {α : Type} (o : Option α) (m : ChecksRA) (f : α → ChecksRA) :
    (stepOpt o m f).total = stepOpt o m.total (fun v => (f v).total) := by cases o <;> rfl

theorem stepOptCR_passed {α : Type} (o : Option α) (m : ChecksRA) (f : α → ChecksRA) :
    (stepOpt o m f).passed = stepOpt o m.passed (fun v => (f v).passed) := by cases o <;> rfl

theorem stepOptCR_failed {α : Type} (o : Option α) (m : ChecksRA) (f : α → ChecksRA) :
    (stepOpt o m f).failed = stepOpt o m.failed (fun v => (f v).failed) := by cases o <;> rfl

theorem stepOptCR_rate {α : Type} (o : Option α) (m : ChecksRA) (f : α → ChecksRA) :
    (stepOpt o m f).rate = stepOpt o m.rate (fun v => (f v).rate) := by cases o <;> rfl

set_option maxHeartbeats 3200000 in
/-- The console-scan extractor equals the record of independent per-field rules. -/
theorem textScan_eq (output : String) :
    parseMetricsFromOutput output = textScanFields output := by
  unfold parseMetricsFromOutput textScanFields natField floatField strField checksCounts
  rcases hcp : firstCapture patChecksPassed output.data with _ | cp <;>
    rcases hct : firstCapture patChecksTotal output.data with _ | ct <;>
    simp only [hcp, hct] <;>
    ext <;>
    simp only [stepOpt_hr, stepOpt_it, stepOpt_dur, stepOpt_hf, stepOpt_hfr, stepOpt_ck,
      stepOpt_vm, stepOpt_dr, stepOpt_ds, stepOptD_avg, stepOptD_min, stepOptD_max,
      stepOptD_p95, stepOptD_med, stepOptC_total, stepOptC_passed, stepOptC_failed,
      stepOptC_rate, stepOpt_const, mtDefault]

set_option maxHeartbeats 3200000 in
/-- The summary extractor equals the record of independent per-key lookups. -/
theorem summaryRA_eq (summary : Option SummaryDoc) :
    extractMetricsFromSummary summary = summaryFieldsRA summary := by
  unfold extractMetricsFromSummary summaryFieldsRA summaryVals
  rcases summary with _ | sdoc
  · ext : 1 <;> simp [mraDefault, stepOpt, jv0]
  · rcases hms : sdoc.metrics with _ | ms
    · simp only [hms]
      ext : 1 <;> simp [mraDefault, stepOpt, jv0]
    · simp only [hms]
      ext : 1 <;>
        simp only [stepOptRA_hr, stepOptRA_it, stepOptRA_dur, stepOptRA_hf, stepOptRA_hfr,
          stepOptRA_ck, stepOptRA_vm, stepOptRA_dr, stepOptRA_ds, stepOpt_const, mraDefault]

/-- C6: every extraction strategy is a total function whose metric-field rules
are applied independently: the console scanner and the summary reader each equal
a record of per-field rules over the same input — no rule outcome influences
another field — and a non-matching pattern / missing key leaves only its own
field at the documented default while the remaining fields are still extracted
(instantiated for `http_reqs` alongside `iterations`); the (spec-modelled)
event-stream strategy likewise: with no accumulated duration samples the trend
fields keep the zero defaults while counters are still tallied. -/
theorem c6_extraction_total_and_independent :
    (∀ output : String, parseMetricsFromOutput output = textScanFields output) ∧
    (∀ summary : Option SummaryDoc,
      extractMetricsFromSummary summary = summaryFieldsRA summary) ∧
    (∀ output : String, firstCapture patHttpReqs output.data = none →
      (parseMetricsFromOutput output).http_reqs = 0 ∧
      (parseMetricsFromOutput output).iterations = natField patIterations output.data) ∧
    (∀ summary : Option SummaryDoc, (summaryVals summary "http_reqs").bind (·.count) = none →
      (extractMetricsFromSummary summary).http_reqs = 0 ∧
      (extractMetricsFromSummary summary).iterations =
        stepOpt ((summaryVals summary "iterations").bind (·.count)) 0 jsRound) ∧
    (∀ recs : List ERecord, trendValues recs "http_req_duration" = [] →
      (eventStreamExtract recs).duration = ⟨jqOfNat 0, jqOfNat 0, jqOfNat 0, jqOfNat 0⟩ ∧
      (eventStreamExtract recs).httpRequests = counterCount recs "http_reqs") := by
  refine ⟨textScan_eq, summaryRA_eq, ?_, ?_, ?_⟩
  · intro output h
    rw [textScan_eq]
    exact ⟨by simp [textScanFields, natField, h, stepOpt], rfl⟩
  · intro summary h
    rw [summaryRA_eq]
    exact ⟨by simp [summaryFieldsRA, h, stepOpt], rfl⟩
  · intro recs h
    exact ⟨by simp [eventStreamExtract, analyzeTrend, h], rfl⟩

/-- Witness for C6 on an input where the `http_reqs` pattern does not match. -/
theorem c6_witness :
    (parseMetricsFromOutput "no requests here").http_reqs = 0 ∧
    (parseMetricsFromOutput "no requests here").iterations =
      natField patIterations "no requests here".data :=
  c6_extraction_total_and_independent.2.2.1 "no requests here" (by decide)

/-- C8 (spec-modelled): the Event-Stream strategy sorts the accumulated duration
samples ascending and takes `p95` at index `⌊n·0.95⌋`; for 10 samples that index
is 9, so `p95` is the value at sorted index 9 — which is a sample of the list
and an upper bound of all samples, i.e. the maximum sample. -/
theorem c8_event_stream_p95_of_ten_samples (vals : List JQ) (h : vals.length = 10) :
    (analyzeTrend vals).p95 = (List.insertionSort jqLeP vals).getD 9 (jqOfNat 0) ∧
    (analyzeTrend vals).p95 ∈ vals ∧
    ∀ x ∈ vals, jqLeP x ((analyzeTrend vals).p95) := by
  have hidx : vals.length * 95 / 100 = 9 := by rw [h]
  have hne : vals.length ≠ 0 := by omega
  have hp95 : (analyzeTrend vals).p95 = (List.insertionSort jqLeP vals).getD 9 (jqOfNat 0) := by
    unfold analyzeTrend
    rw [if_neg hne]
    rw [hidx]
  have hperm := List.perm_insertionSort jqLeP vals
  have hslen : (List.insertionSort jqLeP vals).length = 10 := hperm.length_eq.trans h
  have h9 : (9 : ℕ) < (List.insertionSort jqLeP vals).length := by omega
  have hgetD : (List.insertionSort jqLeP vals).getD 9 (jqOfNat 0) =
      (List.insertionSort jqLeP vals).get ⟨9, h9⟩ := by
    unfold List.getD
    rw [List.get?_eq_get h9]
    rfl
  have hS := List.sorted_insertionSort jqLeP vals
  refine ⟨hp95, ?_, ?_⟩
  · rw [hp95, hgetD]
    exact hperm.mem_iff.1 (List.get_mem _ _ _)
  · intro x hx
    rw [hp95, hgetD]
    obtain ⟨i, hi⟩ := List.mem_iff_get.1 (hperm.mem_iff.2 hx)
    have hile : (i : ℕ) ≤ 9 := by
      have := i.isLt
      omega
    rcases Nat.lt_or_ge (i : ℕ) 9 with hlt | hge
    · have := hS.rel_get_of_lt (Fin.lt_def.mpr (by simpa using hlt) :
        i < (⟨9, h9⟩ : Fin (List.insertionSort jqLeP vals).length))
      rw [hi] at this
      exact this
    · have h9i : i = ⟨9, h9⟩ := Fin.ext (by simpa using (Nat.le_antisymm hge hile).symm)
      rw [← hi, h9i]
      exact le_refl _

/-- Witness for C8 on ten concrete samples. -/
theorem c8_witness :
    ((analyzeTrend [jqOfNat 3, jqOfNat 1, jqOfNat 4, jqOfNat 1, jqOfNat 5, jqOfNat 9,
        jqOfNat 2, jqOfNat 6, jqOfNat 5, jqOfNat 8]).p95 =
      (List.insertionSort jqLeP [jqOfNat 3, jqOfNat 1, jqOfNat 4, jqOfNat 1, jqOfNat 5,
        jqOfNat 9, jqOfNat 2, jqOfNat 6, jqOfNat 5, jqOfNat 8]).getD 9 (jqOfNat 0)) ∧
    ((analyzeTrend [jqOfNat 3, jqOfNat 1, jqOfNat 4, jqOfNat 1, jqOfNat 5, jqOfNat 9,
        jqOfNat 2, jqOfNat 6, jqOfNat 5, jqOfNat 8]).p95 ∈
      [jqOfNat 3, jqOfNat 1, jqOfNat 4, jqOfNat 1, jqOfNat 5, jqOfNat 9,
        jqOfNat 2, jqOfNat 6, jqOfNat 5, jqOfNat 8]) ∧
    ∀ x ∈ [jqOfNat 3, jqOfNat 1, jqOfNat 4, jqOfNat 1, jqOfNat 5, jqOfNat 9,
        jqOfNat 2, jqOfNat 6, jqOfNat 5, jqOfNat 8],
      jqLeP x ((analyzeTrend [jqOfNat 3, jqOfNat 1, jqOfNat 4, jqOfNat 1, jqOfNat 5,
        jqOfNat 9, jqOfNat 2, jqOfNat 6, jqOfNat 5, jqOfNat 8]).p95) :=
  c8_event_stream_p95_of_ten_samples _ (by simp)

theorem takeWhile_append_all {α : Type} (p : α → Bool) (xs ys : List α)
    (h : xs.all p = true) : (xs ++ ys).takeWhile p = xs ++ ys.takeWhile p := by
  induction xs with
  | nil => simp
  | cons a t ih =>
    simp only [List.all_cons, Bool.and_eq_true] at h
    simp [List.takeWhile_cons, h.1, ih h.2]

theorem takeWhile_all {α : Type} (p : α → Bool) (l : List α) (h : l.all p = true) :
    l.takeWhile p = l := by
  have := takeWhile_append_all p l [] h
  simpa using this

/-- Bracketing of the structural base-1024 logarithm. -/
theorem logGo_spec : ∀ (fuel b : ℕ), 1 ≤ b → b < 1024 ^ fuel →
    1024 ^ logGo fuel b ≤ b ∧ b < 1024 ^ (logGo fuel b + 1) := by
  intro fuel
  induction fuel with
  | zero =>
    intro b h1 h2
    simp at h2
    omega
  | succ f ih =>
    intro b h1 h2
    unfold logGo
    by_cases hb : b < 1024
    · rw [if_pos hb]
      constructor
      · simpa using h1
      · simpa using hb
    · rw [if_neg hb]
      push_neg at hb
      have hq1 : 1 ≤ b / 1024 := (Nat.one_le_div_iff (by omega)).2 hb
      have hq2 : b / 1024 < 1024 ^ f := by
        rw [Nat.div_lt_iff_lt_mul (by omega)]
        calc b < 1024 ^ (f + 1) := h2
          _ = 1024 ^ f * 1024 := by ring
      obtain ⟨hl, hr⟩ := ih (b / 1024) hq1 hq2
      constructor
      · calc 1024 ^ (logGo f (b / 1024) + 1) = 1024 ^ logGo f (b / 1024) * 1024 := by ring
          _ ≤ b / 1024 * 1024 := Nat.mul_le_mul_right _ hl
          _ ≤ b := Nat.div_mul_le_self b 1024
      · have hstep : b < (b / 1024 + 1) * 1024 := by omega
        calc b < (b / 1024 + 1) * 1024 := hstep
          _ ≤ 1024 ^ (logGo f (b / 1024) + 1) * 1024 := Nat.mul_le_mul_right _ (by omega)
          _ = 1024 ^ (logGo f (b / 1024) + 1 + 1) := by ring

/-- `Nat.repr` facts on the integer parts this proof needs (digit characters,
nonempty, parsed back by `digitsToNat`). -/
theorem reprFacts : ∀ k, k < 1025 →
    ((Nat.repr k).data.all (CharCls.digit.test ·) = true ∧
     (Nat.repr k).data ≠ [] ∧ digitsToNat (Nat.repr k).data = k) := by decide

/-- Facts about the two-digit zero-padded fraction part. -/
theorem fracFacts : ∀ k, k < 100 →
    ((List.replicate (2 - (Nat.repr k).length) '0' ++ (Nat.repr k).data).all
        (CharCls.digit.test ·) = true ∧
     (List.replicate (2 - (Nat.repr k).length) '0' ++ (Nat.repr k).data).length = 2 ∧
     digitsToNat (List.replicate (2 - (Nat.repr k).length) '0' ++ (Nat.repr k).data) = k) := by
  decide

set_option maxHeartbeats 1600000 in
/-- `parseFloat` on a rendered `digits.digits` string recovers the scaled value. -/
theorem jsParseFloat_digits_dot (a : Char) (A B : List Char)
    (hA : (a :: A).all (CharCls.digit.test ·) = true)
    (hB : B.all (CharCls.digit.test ·) = true) :
    ∃ w : JQ, jsParseFloat ((a :: A) ++ '.' :: B) = some w ∧
      w.num = (digitsToNat (a :: A) : ℤ) * (10 : ℤ) ^ B.length + (digitsToNat B : ℤ) ∧
      w.den = 10 ^ B.length := by
  have ha : CharCls.digit.test a = true := by
    simp only [List.all_cons, Bool.and_eq_true] at hA
    exact hA.1
  have hnsp : CharCls.space.test a = false := by
    simp [CharCls.test] at ha ⊢
    omega
  have hnm : ¬ a = '-' := by
    intro h
    rw [h] at ha
    exact absurd ha (by decide)
  have hnp : ¬ a = '+' := by
    intro h
    rw [h] at ha
    exact absurd ha (by decide)
  have hdrop : (a :: (A ++ '.' :: B)).dropWhile (fun x => CharCls.space.test x) =
      a :: (A ++ '.' :: B) := by
    simp [List.dropWhile_cons, hnsp]
  have htake : (a :: (A ++ '.' :: B)).takeWhile (fun x => CharCls.digit.test x) =
      (a :: A) ++ ('.' :: B).takeWhile (fun x => CharCls.digit.test x) := by
    have := takeWhile_append_all (fun x => CharCls.digit.test x) (a :: A) ('.' :: B) hA
    simpa using this
  have htB : ('.' :: B).takeWhile (fun x => CharCls.digit.test x) = [] := by
    have hd : CharCls.digit.test '.' = false := by decide
    simp [List.takeWhile_cons, hd]
  have hdropAB : (a :: (A ++ '.' :: B)).drop (a :: A).length = '.' :: B := by
    rw [show (a :: (A ++ '.' :: B)) = (a :: A) ++ ('.' :: B) from by simp]
    exact List.drop_left _ _
  unfold jsParseFloat
  dsimp only
  simp only [List.cons_append, hdrop]
  simp only [List.headD_cons, decide_eq_false hnm, decide_eq_false hnp,
    Bool.or_self, Bool.false_eq_true, if_false, if_neg hnm]
  simp only [htake, htB, List.append_nil, hdropAB]
  simp only [List.headD_cons, List.tail_cons]
  have e1 : (('.' : Char) = '.') = True := by simp
  simp only [e1, if_true]
  simp only [takeWhile_all _ B hB, List.drop_length]
  simp only [List.isEmpty_cons, Bool.false_and, Bool.false_eq_true, if_false]
  simp only [List.headD_nil, decide_eq_false (by decide : ¬ ((' ' : Char) = 'e')),
    decide_eq_false (by decide : ¬ ((' ' : Char) = 'E')), Bool.or_self, Bool.false_eq_true,
    if_false]
  refine ⟨_, rfl, ?_, ?_⟩
  · simp [jqScalePow10]
  · simp [jqScalePow10]

theorem string_data_append (s t : String) : (s ++ t).data = s.data ++ t.data := rfl

set_option maxHeartbeats 1600000 in
/-- Parsing back a `toFixed(2)` rendering of a value in `[1, 1024]` recovers the
rounded value over denominator `100` exactly. -/
theorem toFixed2_parse (q : JQ) (h1 : (q.den : ℤ) ≤ q.num) (h2 : q.num ≤ 1024 * (q.den : ℤ)) :
    jsParseFloat (jsToFixed 2 (some q)).data =
      some ⟨⌊q.val * 100 + 1 / 2⌋, 100, by norm_num⟩ := by
  have hden : (0 : ℚ) < (q.den : ℚ) := by exact_mod_cast q.dpos
  have hq1 : (1 : ℚ) ≤ q.val := by
    rw [JQ.val, le_div_iff₀ hden]
    simpa using (by exact_mod_cast h1 : ((q.den : ℤ) : ℚ) ≤ ((q.num : ℤ) : ℚ))
  have hq2 : q.val ≤ 1024 := by
    rw [JQ.val, div_le_iff₀ hden]
    exact_mod_cast h2
  set n : ℤ := ⌊q.val * 100 + 1 / 2⌋ with hn
  have hn100 : 100 ≤ n := by
    rw [hn]
    apply Int.le_floor.2
    push_cast
    nlinarith
  have hnhi : n ≤ 102400 := by
    have : n < 102401 := by
      rw [hn]
      apply Int.floor_lt.2
      push_cast
      nlinarith
    omega
  have hfix : jsToFixed 2 (some q) = fixedDigits n.toNat 2 := by
    rw [jsToFixed_val]
    rw [show ((10 : ℚ) ^ (2 : ℕ)) = 100 from by norm_num]
    rw [← hn, if_neg (by omega : ¬ n < 0)]
  set N : ℕ := n.toNat with hN
  have hNn : (N : ℤ) = n := Int.toNat_of_nonneg (by omega)
  have hNlo : 100 ≤ N := by omega
  have hNhi : N ≤ 102400 := by omega
  have hip : N / 100 < 1025 := by omega
  have hfr : N % 100 < 100 := Nat.mod_lt _ (by omega)
  obtain ⟨hipd, hipne, hiprt⟩ := reprFacts (N / 100) hip
  obtain ⟨hfrd, hfrlen, hfrrt⟩ := fracFacts (N % 100) hfr
  set B : List Char :=
    List.replicate (2 - (Nat.repr (N % 100)).length) '0' ++ (Nat.repr (N % 100)).data with hBdef
  have hdata : (fixedDigits N 2).data = (Nat.repr (N / 100)).data ++ '.' :: B := by
    have h0 : (fixedDigits N 2).data =
        (((Nat.repr (N / 100)).data ++ ['.']) ++
          List.replicate (2 - (Nat.repr (N % 100)).length) '0') ++ (Nat.repr (N % 100)).data :=
      rfl
    rw [h0, hBdef]
    simp
  obtain ⟨a, A, hAA⟩ : ∃ a A, (Nat.repr (N / 100)).data = a :: A := by
    cases hcs : (Nat.repr (N / 100)).data with
    | nil => exact absurd hcs hipne
    | cons x xs => exact ⟨x, xs, rfl⟩
  rw [hfix, hdata, hAA]
  have hA' : (a :: A).all (CharCls.digit.test ·) = true := by rw [← hAA]; exact hipd
  obtain ⟨w, hw, hwnum, hwden⟩ := jsParseFloat_digits_dot a A B hA' hfrd
  rw [hw]
  have hBlen : B.length = 2 := hfrlen
  have hwnum' : w.num = (N : ℤ) := by
    rw [hwnum, hBlen, ← hAA, hiprt, hfrrt]
    push_cast
    omega
  have hwden' : w.den = 100 := by rw [hwden, hBlen]; norm_num
  congr 1
  cases w
  simp only [JQ.mk.injEq]
  exact ⟨by simpa [hNn] using hwnum', hwden'⟩

/-- C4 counterexample: at `1024^4` bytes the index `i = 4` runs past the
`sizes` array, so the output unit is the string `"undefined"` — no unit among
B/KB/MB/GB with a ratio in `[1, 1024)` exists for this input. -/
theorem c4_counterexample :
    formatBytes (jqOfNat (1024 ^ 4)) = "1 undefined" ∧
    ∀ i : ℕ, i < 4 → ¬ (1024 ^ 4 < 1024 ^ (i + 1)) := by
  constructor
  · rfl
  · decide

set_option maxHeartbeats 1600000 in
/-- C4 (amended): `formatBytes` returns `"0 B"` at `0`, `"1.5 KB"` at `1536` and
`"1 MB"` at `1048576`; for every byte count in `[1, 1024^4)` it picks the unique
`i < 4` with `1024^i ≤ b < 1024^(i+1)` (the largest unit with ratio in
`[1, 1024)`) and renders the JS string of `round(b/1024^i, 2)` followed by a
space and `sizes[i]`.  Beyond `1024^4 - 1` the claimed unit does not exist (see
the counterexample). -/
theorem c4_format_bytes (b : ℕ) (h1 : 1 ≤ b) (h2 : b < 1024 ^ 4) :
    formatBytes (jqOfNat 0) = "0 B" ∧
    formatBytes (jqOfNat 1536) = "1.5 KB" ∧
    formatBytes (jqOfNat 1048576) = "1 MB" ∧
    ∃ i : ℕ, i < 4 ∧ 1024 ^ i ≤ b ∧ b < 1024 ^ (i + 1) ∧
      formatBytes (jqOfNat b) =
        jsNumToString (some ⟨⌊(b : ℚ) / 1024 ^ i * 100 + 1 / 2⌋, 100, by norm_num⟩) ++ " " ++
          sizesArr.getD i "" := by
  refine ⟨rfl, rfl, rfl, ?_⟩
  obtain ⟨hlo, hhi⟩ :=
    logGo_spec 120 b h1 (lt_of_lt_of_le h2 (Nat.pow_le_pow_right (by omega) (by omega)))
  set L := logGo 120 b with hL
  have hL4 : L < 4 := by
    by_contra hc
    push_neg at hc
    have h44 : 1024 ^ 4 ≤ 1024 ^ L := Nat.pow_le_pow_right (by omega) hc
    omega
  have hfl : jqFloor (jqOfNat b) = (b : ℤ) := by
    rw [jqFloor_eq, val_ofNat, Int.floor_natCast]
  have hil : intLogJq (jqOfNat b) = (L : ℤ) := by
    unfold intLogJq
    rw [if_pos (by simp [jqOfNat] ; exact_mod_cast h1), hfl, Int.toNat_natCast, hL]
  have hTN : ((1024 : ℤ) ^ L).toNat = 1024 ^ L := by
    rw [show ((1024 : ℤ) ^ L) = ((1024 ^ L : ℕ) : ℤ) from by push_cast ; ring]
    exact Int.toNat_natCast _
  have hpow : jqPow1024 (L : ℤ) = ⟨(1024 : ℤ) ^ L, 1, Nat.one_pos⟩ := by
    unfold jqPow1024
    rw [if_pos (by positivity)]
    simp only [JQ.mk.injEq, Int.toNat_natCast]
  refine ⟨L, hL4, hlo, hhi, ?_⟩
  unfold formatBytes
  rw [if_neg (by simp [jqOfNat] ; omega), if_neg (by simp [jqOfNat])]
  dsimp only
  rw [hil]
  set qv := jqDivQ (jqOfNat b) (jqPow1024 (L : ℤ)) with hqvdef
  have hqnum : qv.num = (b : ℤ) := by
    rw [hqvdef, hpow]
    unfold jqDivQ jqOfNat
    rw [dif_pos (by positivity)]
    simp
  have hqden : qv.den = 1024 ^ L := by
    rw [hqvdef, hpow]
    unfold jqDivQ jqOfNat
    rw [dif_pos (by positivity)]
    simpa using hTN
  have hd1 : (qv.den : ℤ) ≤ qv.num := by
    rw [hqnum, hqden]
    exact_mod_cast hlo
  have hd2 : qv.num ≤ 1024 * (qv.den : ℤ) := by
    rw [hqnum, hqden]
    have hb' : (b : ℤ) < 1024 ^ (L + 1) := by exact_mod_cast hhi
    have hp : ((1024 : ℤ) ^ (L + 1)) = 1024 * 1024 ^ L := by ring
    push_cast
    omega
  have hval : qv.val = (b : ℚ) / 1024 ^ L := by
    rw [JQ.val, hqnum, hqden]
    push_cast
    ring
  have htf := toFixed2_parse qv hd1 hd2
  rw [htf]
  have hfloor : (⟨⌊qv.val * 100 + 1 / 2⌋, 100, by norm_num⟩ : JQ) =
      ⟨⌊(b : ℚ) / 1024 ^ L * 100 + 1 / 2⌋, 100, by norm_num⟩ := by
    simp only [JQ.mk.injEq]
    exact ⟨by rw [hval], trivial⟩
  rw [hfloor]
  have hsz : sizesIdx (L : ℤ) = sizesArr.getD L "" := by
    unfold sizesIdx
    rw [if_pos (by positivity), Int.toNat_natCast]
    interval_cases L <;> rfl
  rw [hsz]

theorem c4_witness :
    1 ≤ 1536 ∧ (1536 : ℕ) < 1024 ^ 4 ∧
    (formatBytes (jqOfNat 0) = "0 B" ∧
     formatBytes (jqOfNat 1536) = "1.5 KB" ∧
     formatBytes (jqOfNat 1048576) = "1 MB" ∧
     ∃ i : ℕ, i < 4 ∧ 1024 ^ i ≤ 1536 ∧ 1536 < 1024 ^ (i + 1) ∧
       formatBytes (jqOfNat 1536) =
         jsNumToString (some ⟨⌊((1536 : ℕ) : ℚ) / 1024 ^ i * 100 + 1 / 2⌋, 100, by norm_num⟩)
           ++ " " ++ sizesArr.getD i "") :=
  ⟨by norm_num, by norm_num, c4_format_bytes 1536 (by norm_num) (by norm_num)⟩

/-- `isPrefixOf` characterised by `take`. -/
theorem isPrefixOf_eq_take : ∀ (l s : List Char),
    l.isPrefixOf s = decide (s.take l.length = l)
  | [], s => by simp [List.isPrefixOf]
  | a :: l', [] => by simp [List.isPrefixOf]
  | a :: l', b :: s' => by
    show (a == b && l'.isPrefixOf s') = _
    rw [isPrefixOf_eq_take l' s']
    by_cases hab : a = b
    · subst hab
      simp [List.take_succ_cons]
    · simp [List.take_succ_cons, hab, Ne.symm hab]

/-- A literal item consumes exactly itself. -/
theorem matchLens_lit (l t : List Char) (rest : List RItem) :
    matchLens (.lit l :: rest) (l ++ t) = (matchLens rest t).map (l.length :: ·) := by
  simp only [matchLens]
  rw [if_pos, List.drop_left]
  rw [isPrefixOf_eq_take, decide_eq_true_eq]
  rw [List.take_append_eq_append_take]
  simp

/-- A class item whose maximal run is `xs` succeeds greedily at `xs` when the
remaining items match the rest. -/
theorem matchLens_cls (c : CharCls) (lo : ℕ) (rest : List RItem) (xs ys : List Char)
    (hstop : (xs ++ ys).takeWhile (c.test ·) = xs)
    (hlo : ¬ xs.length < lo)
    (t : List ℕ) (hf : matchLens rest ys = some t) :
    matchLens (.cls c lo :: rest) (xs ++ ys) = some (xs.length :: t) := by
  simp only [matchLens]
  rw [hstop]
  rcases xs with _ | ⟨x, xs'⟩
  · rw [show ([] : List Char).length = 0 from rfl]
    rw [tryCls]
    rw [if_neg (by simpa using hlo)]
    simp only [List.nil_append] at hf ⊢
    rw [hf]
  · rw [show (x :: xs').length = xs'.length + 1 from rfl]
    rw [tryCls]
    rw [if_neg (by simpa using hlo)]
    rw [show ((x :: xs') ++ ys).drop (xs'.length + 1) = ys from by
      rw [show xs'.length + 1 = (x :: xs').length from rfl]
      exact List.drop_left _ _]
    rw [hf]

theorem takeWhile_append_stop (p : Char → Bool) (xs : List Char) (y : Char) (ys : List Char)
    (hall : xs.all p = true) (hy : p y = false) :
    (xs ++ y :: ys).takeWhile p = xs := by
  rw [takeWhile_append_all p xs _ hall]
  simp [List.takeWhile_cons, hy]

theorem matchCaptureAt_httpReqs_none (s : List Char)
    (h : s.take 9 ≠ "http_reqs".data) :
    matchCaptureAt patHttpReqs s = none := by
  unfold matchCaptureAt
  rw [show patHttpReqs.items =
    [.lit "http_reqs".data, .cls .nonColon 0, .lit ":".data, .cls .space 0,
     .cls .digitComma 1] from rfl]
  simp only [matchLens]
  rw [if_neg, Option.map_none']
  rw [isPrefixOf_eq_take, decide_eq_true_eq]
  exact h

theorem firstCapture_cons_found (p : RPat) (a : Char) (t : List Char) (c : List Char)
    (h : matchCaptureAt p (a :: t) = some c) : firstCapture p (a :: t) = some c := by
  rw [firstCapture]
  rw [h]

theorem firstCapture_append (p : RPat) (A rest : List Char)
    (hA : ∀ k, k < A.length → matchCaptureAt p (A.drop k ++ rest) = none) :
    firstCapture p (A ++ rest) = firstCapture p rest := by
  induction A with
  | nil => simp
  | cons a t ih =>
    rw [List.cons_append, firstCapture]
    rw [show a :: (t ++ rest) = List.drop 0 (a :: t) ++ rest from rfl]
    rw [hA 0 (by simp)]
    exact ih fun k hk => by
      have := hA (k + 1) (by simpa using hk)
      simpa using this

/-- `http_reqs` cannot match starting strictly inside `A`: a full occurrence is
excluded by `hA`, and a straddling one by the fragment's head characters (the
literal has no border against the fragment). -/
theorem no_straddle (A fragB : List Char) (k : ℕ) (hk : k < A.length)
    (hA : ∀ j : ℕ, (A.drop j).take 9 ≠ "http_reqs".data)
    (hfrag : ∀ m : ℕ, 1 ≤ m → m ≤ 8 →
      fragB.take (9 - m) ≠ "http_reqs".data.drop m) :
    (A.drop k ++ fragB).take 9 ≠ "http_reqs".data := by
  intro hcontra
  set d := A.drop k with hd
  have hpos : 0 < d.length := by
    rw [hd, List.length_drop]
    omega
  rcases le_or_lt 9 d.length with hlen | hlen
  · rw [List.take_append_eq_append_take, Nat.sub_eq_zero_of_le hlen] at hcontra
    simp only [List.take_zero, List.append_nil] at hcontra
    exact hA k hcontra
  · rw [List.take_append_eq_append_take, List.take_of_length_le (by omega)] at hcontra
    have hdrop : ("http_reqs".data).drop d.length = fragB.take (9 - d.length) := by
      have h2 := congrArg (List.drop d.length) hcontra
      rw [List.drop_append_eq_append_drop] at h2
      simp only [List.drop_of_length_le (le_refl d.length), Nat.sub_self,
        List.drop_zero, List.nil_append] at h2
      exact h2.symm
    exact hfrag d.length hpos (by omega) hdrop.symm

/-- At the fragment itself the pattern matches and captures `"120"`, whatever
follows. -/
theorem frag_capture (B : List Char) :
    matchCaptureAt patHttpReqs ("http_reqs......: 120 1.2/s".data ++ B) = some "120".data := by
  have h5 : matchLens [.cls .digitComma 1] ("120".data ++ (" 1.2/s".data ++ B)) =
      some [3] :=
    matchLens_cls .digitComma 1 [] "120".data (" 1.2/s".data ++ B)
      (takeWhile_append_stop _ "120".data ' ' ("1.2/s".data ++ B) (by decide) (by decide))
      (by decide) [] rfl
  have h4 : matchLens [.cls .space 0, .cls .digitComma 1]
      (" ".data ++ ("120".data ++ (" 1.2/s".data ++ B))) = some [1, 3] :=
    matchLens_cls .space 0 [.cls .digitComma 1] " ".data ("120".data ++ (" 1.2/s".data ++ B))
      (takeWhile_append_stop _ " ".data '1' ("20".data ++ (" 1.2/s".data ++ B))
        (by decide) (by decide))
      (by decide) [3] h5
  have h3 : matchLens [.lit ":".data, .cls .space 0, .cls .digitComma 1]
      (":".data ++ (" ".data ++ ("120".data ++ (" 1.2/s".data ++ B)))) = some [1, 1, 3] := by
    rw [matchLens_lit, h4]
    rfl
  have h2 : matchLens [.cls .nonColon 0, .lit ":".data, .cls .space 0, .cls .digitComma 1]
      ("......".data ++ (":".data ++ (" ".data ++ ("120".data ++ (" 1.2/s".data ++ B))))) =
      some [6, 1, 1, 3] :=
    matchLens_cls .nonColon 0 [.lit ":".data, .cls .space 0, .cls .digitComma 1]
      "......".data (":".data ++ (" ".data ++ ("120".data ++ (" 1.2/s".data ++ B))))
      (takeWhile_append_stop _ "......".data ':'
        (" ".data ++ ("120".data ++ (" 1.2/s".data ++ B))) (by decide) (by decide))
      (by decide) [1, 1, 3] h3
  have h1 : matchLens patHttpReqs.items
      ("http_reqs".data ++ ("......".data ++ (":".data ++ (" ".data ++ ("120".data ++
        (" 1.2/s".data ++ B)))))) = some [9, 6, 1, 1, 3] := by
    rw [show patHttpReqs.items =
      RItem.lit "http_reqs".data :: [.cls .nonColon 0, .lit ":".data, .cls .space 0,
        .cls .digitComma 1] from rfl]
    rw [matchLens_lit, h2]
    rfl
  show matchCaptureAt patHttpReqs
      ("http_reqs".data ++ ("......".data ++ (":".data ++ (" ".data ++ ("120".data ++
        (" 1.2/s".data ++ B)))))) = some "120".data
  unfold matchCaptureAt
  rw [h1]
  rfl

set_option maxHeartbeats 800000 in
/-- C9 (amended): on any input `A ++ "http_reqs......: 120 1.2/s" ++ B` whose
prefix `A` contains no occurrence of `http_reqs`, the Text-Scan strategy extracts
`http_reqs = 120`.  (The occurrence condition on `A` is required: the pattern
match takes the FIRST `http_reqs` line of the input, see the counterexample.) -/
theorem c9_http_reqs (A B : List Char)
    (hA : ∀ j : ℕ, (A.drop j).take 9 ≠ "http_reqs".data) :
    (parseMetricsFromOutput
        (String.mk (A ++ "http_reqs......: 120 1.2/s".data ++ B))).http_reqs = 120 := by
  have hfrag : ∀ m : ℕ, 1 ≤ m → m ≤ 8 →
      (("http_reqs......: 120 1.2/s".data ++ B)).take (9 - m) ≠ "http_reqs".data.drop m := by
    intro m h1 h8
    have hlen : ("http_reqs......: 120 1.2/s".data).length = 26 := rfl
    have h0 : (9 - m) - ("http_reqs......: 120 1.2/s".data).length = 0 := by
      rw [hlen]
      omega
    rw [List.take_append_eq_append_take, h0, List.take_zero, List.append_nil]
    interval_cases m <;> decide
  have hnone : ∀ k, k < A.length →
      matchCaptureAt patHttpReqs (A.drop k ++ ("http_reqs......: 120 1.2/s".data ++ B)) =
        none := by
    intro k hk
    exact matchCaptureAt_httpReqs_none _ (no_straddle A _ k hk hA hfrag)
  have hskip := firstCapture_append patHttpReqs A ("http_reqs......: 120 1.2/s".data ++ B) hnone
  have hfound : firstCapture patHttpReqs ("http_reqs......: 120 1.2/s".data ++ B) =
      some "120".data := by
    show firstCapture patHttpReqs ('h' :: ("ttp_reqs......: 120 1.2/s".data ++ B)) =
      some "120".data
    exact firstCapture_cons_found patHttpReqs 'h' _ "120".data (frag_capture B)
  rw [textScan_eq]
  show natField patHttpReqs (A ++ "http_reqs......: 120 1.2/s".data ++ B) = 120
  unfold natField
  rw [List.append_assoc, hskip, hfound]
  decide

/-- C9 counterexample: an input containing the claimed fragment
`"http_reqs......: 120 1.2/s"` (here preceded by another `http_reqs` line) for
which the Text-Scan strategy extracts `5`, not `120` — the regex match is
first-occurrence, not fragment-specific. -/
theorem c9_counterexample :
    "http_reqs: 5\nhttp_reqs......: 120 1.2/s".data =
      "http_reqs: 5\n".data ++ "http_reqs......: 120 1.2/s".data ++ [] ∧
    (parseMetricsFromOutput "http_reqs: 5\nhttp_reqs......: 120 1.2/s").http_reqs = 5 := by
  constructor
  · rfl
  · decide

/-- Witness for the amended C9 theorem at a concrete prefix and suffix. -/
theorem c9_witness :
    (∀ j : ℕ, (("reqs: 5\n".data).drop j).take 9 ≠ "http_reqs".data) ∧
    (parseMetricsFromOutput (String.mk ("reqs: 5\n".data ++
        "http_reqs......: 120 1.2/s".data ++ "ok".data))).http_reqs = 120 := by
  have hA : ∀ j : ℕ, (("reqs: 5\n".data).drop j).take 9 ≠ "http_reqs".data := by
    intro j
    rcases lt_or_ge j 9 with h | h
    · interval_cases j <;> decide
    · rw [List.drop_eq_nil_of_le (by rw [show ("reqs: 5\n".data).length = 8 from rfl]; omega)]
      decide
  exact ⟨hA, c9_http_reqs "reqs: 5\n".data "ok".data hA⟩
